import Mathlib

/-!
Shallow embedding of the SQLite-backed user store of this repository
(src/database_sqlite.py, class DatabaseManager) together with proofs about
its quota, premium, cache-invalidation, session and sweep behaviour.

Modelling conventions:
* Timestamps and calendar dates are abstracted as integers.  `Clock.now` is
  the current instant (measured in minutes, so the 60-minute sweep cutoff of
  `cleanup_expired_sessions` is `now - 60`) and `Clock.today` is the current
  calendar date.  ISO strings compare chronologically, so integer comparison
  is a faithful abstraction; the string-parse fallbacks of the source are
  modelled as always succeeding.
* SQLite tables become association lists keyed by their primary keys; an
  UPDATE touching the rows matching a key is `aupdate`, a DELETE is `aerase`,
  `rowcount > 0` of a keyed UPDATE/DELETE is the presence of the key.
* Storage-engine failures are injected through `Faults`: `rfail` makes every
  read statement raise, `wfail` makes every write block raise.  A Python
  `try/except` that converts the exception into a default value is modelled
  by returning that default; a function without such a handler returns
  `Except.error` (the escaping exception).  Writes inside a `with self.lock`
  block that raise before `commit` leave the store unchanged.
* Logging and the fire-and-forget cloud-backup trigger change no store or
  cache state and are omitted.
-/

/-- Results of the fallible operations (escaping exception vs value) have
decidable equality, so concrete runs can be checked by `decide`. -/
instance {ε α : Type} [DecidableEq ε] [DecidableEq α] :
    DecidableEq (Except ε α) := fun a b =>
  match a, b with
  | .error x, .error y => decidable_of_iff (x = y) (by simp)
  | .ok x, .ok y => decidable_of_iff (x = y) (by simp)
  | .error _, .ok _ => isFalse (fun h => Except.noConfusion h)
  | .ok _, .error _ => isFalse (fun h => Except.noConfusion h)

/-- Association-list lookup: a SELECT by (primary) key. -/
def alookup {α β : Type} [DecidableEq α] (k : α) : List (α × β) → Option β
  | [] => none
  | (k', v) :: t => if k = k' then some v else alookup k t

/-- Remove every row with the given key: a keyed DELETE. -/
def aerase {α β : Type} [DecidableEq α] (k : α) : List (α × β) → List (α × β)
  | [] => []
  | (k', v) :: t => if k = k' then aerase k t else (k', v) :: aerase k t

/-- Insert-or-replace by key: an INSERT OR REPLACE. -/
def aset {α β : Type} [DecidableEq α] (k : α) (v : β) (l : List (α × β)) :
    List (α × β) :=
  (k, v) :: aerase k l

/-- Update every row with the given key in place: a keyed UPDATE. -/
def aupdate {α β : Type} [DecidableEq α] (k : α) (g : β → β) :
    List (α × β) → List (α × β)
  | [] => []
  | (k', v) :: t =>
    if k = k' then (k', g v) :: aupdate k g t else (k', v) :: aupdate k g t

/-- Abstract time: `now` an instant (in minutes), `today` a calendar date. -/
structure Clock where
  now : Int
  today : Int
  deriving DecidableEq, Repr

/-- Storage-fault injection: `rfail` makes read statements raise, `wfail`
makes write blocks raise. -/
structure Faults where
  rfail : Bool
  wfail : Bool
  deriving DecidableEq, Repr

/-- The fault-free storage engine. -/
def noFaults : Faults := ⟨false, false⟩

/-- One row of the `users` table (identity key kept outside the row). -/
structure UserRow where
  user_type : String
  subscription_end : Option Int
  premium_source : Option String
  is_banned : Bool
  session_string : Option String
  custom_thumbnail : Option String
  ad_downloads : Int
  ad_downloads_reset_date : Int
  shortener_index : Int
  deriving DecidableEq, Repr

/-- One row of the `admins` table (key: user id). -/
structure AdminRow where
  added_by : Nat
  added_date : Int
  deriving DecidableEq, Repr

/-- One row of the `ad_sessions` table (key: session id). -/
structure AdSessionRow where
  user_id : Nat
  created_at : Int
  used : Bool
  deriving DecidableEq, Repr

/-- One row of the `ad_verifications` table (key: code). -/
structure VerificationRow where
  user_id : Nat
  created_at : Int
  deriving DecidableEq, Repr

/-- The durable store: the five tables the verified operations touch. -/
structure DB where
  users : List (Nat × UserRow)
  daily_usage : List ((Nat × Int) × Int)
  admins : List (Nat × AdminRow)
  ad_sessions : List (String × AdSessionRow)
  ad_verifications : List (String × VerificationRow)
  deriving DecidableEq, Repr

/-- A cache entry: value plus absolute expiry instant. -/
structure CEntry (α : Type) where
  val : α
  expiry : Int
  deriving DecidableEq, Repr

/-- Modelled from the spec: the TTLCache of §4.2 (its implementation,
cache.py, is not part of the sources).  A process-wide key-value cache with
per-entry expiry measured from insertion; `get` misses once the entry has
expired, `set` overwrites, `delete` removes.  The three key families used by
the store (`user_<id>`, `admin_<id>`, `banned_<id>`) are kept as three
separate tables. -/
structure Cache where
  userC : List (Nat × CEntry UserRow)
  adminC : List (Nat × CEntry Bool)
  bannedC : List (Nat × CEntry Bool)
  deriving DecidableEq, Repr

/-- Modelled from the spec: cache `get` for a `user_<id>` key. -/
def cache_get_user (c : Clock) (ch : Cache) (user_id : Nat) : Option UserRow :=
  match alookup user_id ch.userC with
  | some e => if c.now < e.expiry then some e.val else none
  | none => none

/-- Modelled from the spec: cache `set` for a `user_<id>` key. -/
def cache_set_user (c : Clock) (ch : Cache) (user_id : Nat) (r : UserRow)
    (ttl : Int) : Cache :=
  { ch with userC := aset user_id ⟨r, c.now + ttl⟩ ch.userC }

/-- Modelled from the spec: cache `delete` for a `user_<id>` key. -/
def cache_del_user (user_id : Nat) (ch : Cache) : Cache :=
  { ch with userC := aerase user_id ch.userC }

/-- Modelled from the spec: cache `get` for an `admin_<id>` key. -/
def cache_get_admin (c : Clock) (ch : Cache) (user_id : Nat) : Option Bool :=
  match alookup user_id ch.adminC with
  | some e => if c.now < e.expiry then some e.val else none
  | none => none

/-- Modelled from the spec: cache `set` for an `admin_<id>` key. -/
def cache_set_admin (c : Clock) (ch : Cache) (user_id : Nat) (b : Bool)
    (ttl : Int) : Cache :=
  { ch with adminC := aset user_id ⟨b, c.now + ttl⟩ ch.adminC }

/-- Modelled from the spec: cache `delete` for an `admin_<id>` key. -/
def cache_del_admin (user_id : Nat) (ch : Cache) : Cache :=
  { ch with adminC := aerase user_id ch.adminC }

/-- Modelled from the spec: cache `delete` for a `banned_<id>` key. -/
def cache_del_banned (user_id : Nat) (ch : Cache) : Cache :=
  { ch with bannedC := aerase user_id ch.bannedC }

/-- Full state of the DatabaseManager: durable store, cache, and a count of
invocations of the no-op hook `increment_shortener_rotation` (the source
function only returns True; the counter makes its invocations observable). -/
structure St where
  db : DB
  cache : Cache
  rotation_calls : Nat
  deriving DecidableEq, Repr

/-- Row effect of the lazy downgrade UPDATE in get_user_type. -/
def downgrade_row (r : UserRow) : UserRow :=
  { r with
      user_type := "free"
      subscription_end := none
      premium_source := none }

/-- Row effect of the daily ad-balance reset UPDATE. -/
def reset_row (today : Int) (r : UserRow) : UserRow :=
  { r with
      ad_downloads := 0
      ad_downloads_reset_date := today }

/-- Row effect of the set_premium UPDATE. -/
def premium_row (expiry_datetime : Int) (source : String) (r : UserRow) : UserRow :=
  { r with
      user_type := "paid"
      subscription_end := some expiry_datetime
      premium_source := some source }

/-- Row effect of set_user_type with type 'paid'. -/
def paid_type_row (sub_end : Int) (r : UserRow) : UserRow :=
  { r with
      user_type := "paid"
      subscription_end := some sub_end
      premium_source := some "paid" }

/-- Row effect of set_user_type with a non-paid type. -/
def plain_type_row (ty : String) (r : UserRow) : UserRow :=
  { r with
      user_type := ty
      subscription_end := none
      premium_source := none }

/-- The user-facing outcome string of `can_download` (empty string on
approval, the "Insufficient ad downloads" message, or the "Daily limit
reached" message). -/
inductive Reason where
  | empty
  | insufficientAds
  | dailyLimit
  deriving DecidableEq, Repr

/-- Replace the users table of a state. -/
def st_users (s : St) (l : List (Nat × UserRow)) : St :=
  { s with db := { s.db with users := l } }

/-- Replace the daily_usage table of a state. -/
def st_daily (s : St) (l : List ((Nat × Int) × Int)) : St :=
  { s with db := { s.db with daily_usage := l } }

/-- Replace the admins table of a state. -/
def st_admins (s : St) (l : List (Nat × AdminRow)) : St :=
  { s with db := { s.db with admins := l } }

/-- Replace the ad_sessions table of a state. -/
def st_sessions (s : St) (l : List (String × AdSessionRow)) : St :=
  { s with db := { s.db with ad_sessions := l } }

/-- Replace both sweep-managed tables of a state. -/
def st_sweep (s : St) (l : List (String × AdSessionRow))
    (v : List (String × VerificationRow)) : St :=
  { s with db := { s.db with ad_sessions := l, ad_verifications := v } }

/-- Replace the cache of a state. -/
def st_cache (s : St) (ch : Cache) : St :=
  { s with cache := ch }

/-- Row effect of the ad-balance deduction UPDATE in increment_usage. -/
def deduct_row (count : Int) (r : UserRow) : UserRow :=
  { r with ad_downloads := r.ad_downloads - count }

/-- DatabaseManager.get_user: cache-first read of a user row; on a miss the
row is fetched and cached for 180 s; read errors are caught and yield None. -/
def get_user (f : Faults) (c : Clock) (s : St) (user_id : Nat) :
    Option UserRow × St :=
  match cache_get_user c s.cache user_id with
  | some r => (some r, s)
  | none =>
    if f.rfail then (none, s)
    else
      match alookup user_id s.db.users with
      | some row => (some row, st_cache s (cache_set_user c s.cache user_id row 180))
      | none => (none, s)

/-- DatabaseManager.is_admin: cache-first membership test of the admins
table, cached for 300 s; read errors are caught and yield False. -/
def is_admin (f : Faults) (c : Clock) (s : St) (user_id : Nat) : Bool × St :=
  match cache_get_admin c s.cache user_id with
  | some b => (b, s)
  | none =>
    if f.rfail then (false, s)
    else
      ((alookup user_id s.db.admins).isSome,
        st_cache s (cache_set_admin c s.cache user_id (alookup user_id s.db.admins).isSome 300))

/-- DatabaseManager.get_user_type: missing user is free; admins override;
a stored paid tier with a future subscription_end is paid; with a past one
the row is downgraded in place (user_type free, subscription_end and
premium_source cleared) and free is returned.  The user cache entry is not
invalidated by the downgrade.  The function has no try/except of its own,
so a failing downgrade write escapes as an error. -/
def get_user_type (f : Faults) (c : Clock) (s : St) (user_id : Nat) :
    Except Unit String × St :=
  match get_user f c s user_id with
  | (none, s1) => (.ok "free", s1)
  | (some u, s1) =>
    match is_admin f c s1 user_id with
    | (true, s2) => (.ok "admin", s2)
    | (false, s2) =>
      if u.user_type = "paid" then
        match u.subscription_end with
        | some sub_end =>
          if c.now < sub_end then (.ok "paid", s2)
          else if f.wfail then (.error (), s2)
          else (.ok "free", st_users s2 (aupdate user_id downgrade_row s2.db.users))
        | none => (.ok "free", s2)
      else (.ok "free", s2)

/-- DatabaseManager.get_daily_usage for today's date: the files_downloaded
counter of the (user, today) row, 0 when absent or on a caught read error. -/
def get_daily_usage (f : Faults) (c : Clock) (s : St) (user_id : Nat) : Int :=
  if f.rfail then 0
  else (alookup (user_id, c.today) s.db.daily_usage).getD 0

/-- DatabaseManager.reset_ad_downloads_if_needed: when the stored reset date
is not today, zero the ad balance, stamp today, and delete the user cache
entry.  No try/except of its own: a failing write escapes. -/
def reset_ad_downloads_if_needed (f : Faults) (c : Clock) (s : St)
    (user_id : Nat) : Except Unit Unit × St :=
  match get_user f c s user_id with
  | (none, s1) => (.ok (), s1)
  | (some u, s1) =>
    if u.ad_downloads_reset_date = c.today then (.ok (), s1)
    else if f.wfail then (.error (), s1)
    else
      (.ok (),
        st_cache (st_users s1 (aupdate user_id (reset_row c.today) s1.db.users))
          (cache_del_user user_id s1.cache))

/-- DatabaseManager.increment_shortener_rotation: the source returns True
without touching any stored state; the model also records the invocation. -/
def increment_shortener_rotation (s : St) : Bool × St :=
  (true, { s with rotation_calls := s.rotation_calls + 1 })

/-- The `for _ in range(count)` loop of calls to the rotation hook. -/
def bump_rotation (n : Nat) (s : St) : St :=
  { s with rotation_calls := s.rotation_calls + n }

/-- Net effect of `INSERT OR IGNORE` of a zero row followed by the add-count
UPDATE on the (user, today) daily_usage row. -/
def daily_upsert_add (today : Int) (l : List ((Nat × Int) × Int))
    (user_id : Nat) (count : Int) : List ((Nat × Int) × Int) :=
  match alookup (user_id, today) l with
  | some _ => aupdate (user_id, today) (fun n => n + count) l
  | none => ((user_id, today), count) :: l

/-- DatabaseManager.can_download: admins and active-paid users are always
allowed; otherwise the ad balance (after the daily reset) is authoritative
when positive, else the daily counter with its fixed allowance of 1.  No
try/except: errors escaping get_user_type or the reset propagate. -/
def can_download (f : Faults) (c : Clock) (s : St) (user_id : Nat)
    (count : Int) : Except Unit (Bool × Reason) × St :=
  match get_user_type f c s user_id with
  | (.error e, s1) => (.error e, s1)
  | (.ok t, s1) =>
    if t = "admin" ∨ t = "paid" then (.ok (true, .empty), s1)
    else
      match reset_ad_downloads_if_needed f c s1 user_id with
      | (.error e, s2) => (.error e, s2)
      | (.ok _, s2) =>
        match get_user f c s2 user_id with
        | (u, s3) =>
          let ad_downloads : Int := match u with | some r => r.ad_downloads | none => 0
          if 0 < ad_downloads then
            if ad_downloads < count then (.ok (false, .insufficientAds), s3)
            else (.ok (true, .empty), s3)
          else
            if 1 < get_daily_usage f c s3 user_id + count then
              (.ok (false, .dailyLimit), s3)
            else (.ok (true, .empty), s3)

/-- DatabaseManager.increment_usage: admins/paid only invoke the rotation
hook; otherwise the ad balance is charged through a conditional UPDATE
(`ad_downloads >= count` checked against the stored row at write time) with
the user cache entry deleted on success, else the daily counter is checked
against the allowance of 1 and upserted.  The whole body is wrapped in
try/except returning False. -/
def increment_usage (f : Faults) (c : Clock) (s : St) (user_id : Nat)
    (count : Int) : Bool × St :=
  match get_user_type f c s user_id with
  | (.error _, s1) => (false, s1)
  | (.ok t, s1) =>
    if t = "admin" ∨ t = "paid" then (true, bump_rotation count.toNat s1)
    else
      match reset_ad_downloads_if_needed f c s1 user_id with
      | (.error _, s2) => (false, s2)
      | (.ok _, s2) =>
        match get_user f c s2 user_id with
        | (u, s3) =>
          let ad_downloads : Int := match u with | some r => r.ad_downloads | none => 0
          if 0 < ad_downloads then
            if ad_downloads < count then (false, s3)
            else if f.wfail then (false, s3)
            else
              match alookup user_id s3.db.users with
              | some r =>
                if count ≤ r.ad_downloads then
                  (true, bump_rotation count.toNat
                    (st_cache (st_users s3 (aupdate user_id (deduct_row count) s3.db.users))
                      (cache_del_user user_id s3.cache)))
                else (false, s3)
              | none => (false, s3)
          else
            if 1 < get_daily_usage f c s3 user_id + count then (false, s3)
            else if f.wfail then (false, s3)
            else
              (true, bump_rotation count.toNat
                (st_daily s3 (daily_upsert_add c.today s3.db.daily_usage user_id count)))

/-- The guard of set_premium: a stored paid tier with a parseable, future
subscription_end. -/
def active_premium (c : Clock) (r : UserRow) : Bool :=
  (r.user_type == "paid") &&
    (match r.subscription_end with
     | some e => decide (c.now < e)
     | none => false)

/-- DatabaseManager.set_premium: an ads-source grant is refused while an
active premium from a different source exists; otherwise the row (when
present) is overwritten with paid tier, the given expiry and source.  The
user cache entry is NOT invalidated. -/
def set_premium (f : Faults) (c : Clock) (s : St) (user_id : Nat)
    (expiry_datetime : Int) (source : String) : Bool × St :=
  match get_user f c s user_id with
  | (u, s1) =>
    let blocked : Bool :=
      match u with
      | some r =>
        active_premium c r && (source == "ads") && !(r.premium_source == some "ads")
      | none => false
    if blocked then (false, s1)
    else if f.wfail then (false, s1)
    else
      ((alookup user_id s1.db.users).isSome,
        st_users s1 (aupdate user_id (premium_row expiry_datetime source) s1.db.users))

/-- DatabaseManager.set_user_type: direct tier write ('paid' stamps a
subscription_end `days` ahead and source 'paid'; anything else clears both).
The user cache entry is NOT invalidated. -/
def set_user_type (f : Faults) (c : Clock) (s : St) (user_id : Nat)
    (user_type : String) (days : Int) : Bool × St :=
  if f.wfail then (false, s)
  else if user_type == "paid" then
    ((alookup user_id s.db.users).isSome,
      st_users s (aupdate user_id (paid_type_row (c.now + days)) s.db.users))
  else
    ((alookup user_id s.db.users).isSome,
      st_users s (aupdate user_id (plain_type_row user_type) s.db.users))

/-- DatabaseManager.ban_user: sets is_banned and deletes the banned and user
cache entries. -/
def ban_user (f : Faults) (s : St) (user_id : Nat) : Bool × St :=
  if f.wfail then (false, s)
  else
    ((alookup user_id s.db.users).isSome,
      st_cache (st_users s (aupdate user_id (fun r => { r with is_banned := true }) s.db.users))
        (cache_del_user user_id (cache_del_banned user_id s.cache)))

/-- DatabaseManager.unban_user: clears is_banned and deletes the banned and
user cache entries. -/
def unban_user (f : Faults) (s : St) (user_id : Nat) : Bool × St :=
  if f.wfail then (false, s)
  else
    ((alookup user_id s.db.users).isSome,
      st_cache (st_users s (aupdate user_id (fun r => { r with is_banned := false }) s.db.users))
        (cache_del_user user_id (cache_del_banned user_id s.cache)))

/-- DatabaseManager.add_admin: INSERT OR REPLACE into admins, then deletes
the admin and user cache entries; returns True. -/
def add_admin (f : Faults) (c : Clock) (s : St) (user_id added_by : Nat) :
    Bool × St :=
  if f.wfail then (false, s)
  else
    (true,
      st_cache (st_admins s (aset user_id ⟨added_by, c.now⟩ s.db.admins))
        (cache_del_user user_id (cache_del_admin user_id s.cache)))

/-- DatabaseManager.remove_admin: keyed DELETE reporting whether a row
existed, then deletes the admin and user cache entries. -/
def remove_admin (f : Faults) (s : St) (user_id : Nat) : Bool × St :=
  if f.wfail then (false, s)
  else
    ((alookup user_id s.db.admins).isSome,
      st_cache (st_admins s (aerase user_id s.db.admins))
        (cache_del_user user_id (cache_del_admin user_id s.cache)))

/-- DatabaseManager.add_ad_downloads: unconditional additive grant; the user
cache entry is deleted after the write. -/
def add_ad_downloads (f : Faults) (s : St) (user_id : Nat) (count : Int) :
    Bool × St :=
  if f.wfail then (false, s)
  else
    ((alookup user_id s.db.users).isSome,
      st_cache
        (st_users s (aupdate user_id (fun r => { r with ad_downloads := r.ad_downloads + count }) s.db.users))
        (cache_del_user user_id s.cache))

/-- DatabaseManager.set_user_session: writes the session string and deletes
the user cache entry. -/
def set_user_session (f : Faults) (s : St) (user_id : Nat)
    (session_string : Option String) : Bool × St :=
  if f.wfail then (false, s)
  else
    ((alookup user_id s.db.users).isSome,
      st_cache
        (st_users s (aupdate user_id (fun r => { r with session_string := session_string }) s.db.users))
        (cache_del_user user_id s.cache))

/-- DatabaseManager.set_custom_thumbnail: writes the thumbnail reference;
the user cache entry is NOT invalidated. -/
def set_custom_thumbnail (f : Faults) (s : St) (user_id : Nat)
    (file_id : String) : Bool × St :=
  if f.wfail then (false, s)
  else
    ((alookup user_id s.db.users).isSome,
      st_users s (aupdate user_id (fun r => { r with custom_thumbnail := some file_id }) s.db.users))

/-- DatabaseManager.delete_custom_thumbnail: clears the thumbnail reference;
the user cache entry is NOT invalidated. -/
def delete_custom_thumbnail (f : Faults) (s : St) (user_id : Nat) : Bool × St :=
  if f.wfail then (false, s)
  else
    ((alookup user_id s.db.users).isSome,
      st_users s (aupdate user_id (fun r => { r with custom_thumbnail := none }) s.db.users))

/-- DatabaseManager.rotate_user_shortener: advances the per-user rotation
index mod 4 and deletes the user cache entry. -/
def rotate_user_shortener (f : Faults) (c : Clock) (s : St) (user_id : Nat) :
    Bool × St :=
  match get_user f c s user_id with
  | (u, s1) =>
    let current_index : Int := match u with | some r => r.shortener_index | none => 0
    if f.wfail then (false, s1)
    else
      ((alookup user_id s1.db.users).isSome,
        st_cache
          (st_users s1 (aupdate user_id (fun r => { r with shortener_index := (current_index + 1) % 4 }) s1.db.users))
          (cache_del_user user_id s1.cache))

/-- DatabaseManager.mark_ad_session_used: conditional UPDATE setting used=1
only where used=0; reports whether a row was changed. -/
def mark_ad_session_used (f : Faults) (s : St) (session_id : String) :
    Bool × St :=
  if f.wfail then (false, s)
  else
    match alookup session_id s.db.ad_sessions with
    | some sess =>
      if sess.used then (false, s)
      else
        (true, st_sessions s
          (aupdate session_id (fun s0 => { s0 with used := true }) s.db.ad_sessions))
    | none => (false, s)

/-- DatabaseManager.cleanup_expired_sessions: deletes ad sessions and
verification codes created before `now - 60` minutes, returns both deleted
row counts, and deletes the user cache entry of every swept session's owner
(verification codes trigger no cache invalidation).  Storage errors are
caught and yield zero counts with no change. -/
def cleanup_expired_sessions (f : Faults) (c : Clock) (s : St) :
    (Nat × Nat) × St :=
  if f.rfail || f.wfail then ((0, 0), s)
  else
    let cutoff := c.now - 60
    let expired := s.db.ad_sessions.filter (fun p => decide (p.2.created_at < cutoff))
    let kept := s.db.ad_sessions.filter (fun p => !decide (p.2.created_at < cutoff))
    let deleted_verifications :=
      (s.db.ad_verifications.filter (fun p => decide (p.2.created_at < cutoff))).length
    let kept_verifications :=
      s.db.ad_verifications.filter (fun p => !decide (p.2.created_at < cutoff))
    ((expired.length, deleted_verifications),
      st_cache (st_sweep s kept kept_verifications)
        (expired.foldl (fun ch p => cache_del_user p.2.user_id ch) s.cache))

/-- The user cache entry for an id, when live, agrees with the stored row. -/
def user_cache_ok (c : Clock) (s : St) (user_id : Nat) : Bool :=
  match cache_get_user c s.cache user_id with
  | some r => alookup user_id s.db.users == some r
  | none => true

/-- The admin cache entry for an id, when live, agrees with the admins table. -/
def admin_cache_ok (c : Clock) (s : St) (user_id : Nat) : Bool :=
  match cache_get_admin c s.cache user_id with
  | some b => b == (alookup user_id s.db.admins).isSome
  | none => true

/-! Elementary facts about the association-list table operations. -/

theorem alookup_aerase_self {α β : Type} [DecidableEq α] (k : α)
    (l : List (α × β)) : alookup k (aerase k l) = none := by
  induction l with
  | nil => rfl
  | cons hd t ih =>
    obtain ⟨k', v⟩ := hd
    by_cases hk : k = k'
    · simpa [aerase, hk] using ih
    · simp [aerase, hk, alookup, ih]

theorem alookup_aerase_ne {α β : Type} [DecidableEq α] {k j : α}
    (hk : k ≠ j) (l : List (α × β)) : alookup k (aerase j l) = alookup k l := by
  induction l with
  | nil => rfl
  | cons hd t ih =>
    obtain ⟨k', v⟩ := hd
    by_cases hj : j = k'
    · subst hj; simp [aerase, alookup, hk, ih]
    · by_cases hkk : k = k' <;> simp [aerase, alookup, hj, hkk, ih]

theorem alookup_aset_self {α β : Type} [DecidableEq α] (k : α) (v : β)
    (l : List (α × β)) : alookup k (aset k v l) = some v := by
  simp [aset, alookup]

theorem alookup_aset_ne {α β : Type} [DecidableEq α] {k j : α} (hk : k ≠ j)
    (v : β) (l : List (α × β)) : alookup k (aset j v l) = alookup k l := by
  simp [aset, alookup, hk, alookup_aerase_ne hk]

theorem alookup_aupdate_self {α β : Type} [DecidableEq α] (k : α) (g : β → β)
    (l : List (α × β)) : alookup k (aupdate k g l) = (alookup k l).map g := by
  induction l with
  | nil => rfl
  | cons hd t ih =>
    obtain ⟨k', v⟩ := hd
    by_cases hk : k = k' <;> simp [aupdate, alookup, hk, ih]

theorem alookup_aupdate_ne {α β : Type} [DecidableEq α] {k j : α} (hk : k ≠ j)
    (g : β → β) (l : List (α × β)) : alookup k (aupdate j g l) = alookup k l := by
  induction l with
  | nil => rfl
  | cons hd t ih =>
    obtain ⟨k', v⟩ := hd
    by_cases hj : j = k'
    · subst hj; simp [aupdate, alookup, hk, ih]
    · by_cases hkk : k = k' <;> simp [aupdate, alookup, hj, hkk, ih]

theorem alookup_mem {α β : Type} [DecidableEq α] {k : α} {v : β}
    {l : List (α × β)} (h : alookup k l = some v) : (k, v) ∈ l := by
  induction l with
  | nil => simp [alookup] at h
  | cons hd t ih =>
    obtain ⟨k', v'⟩ := hd
    by_cases hk : k = k'
    · simp [alookup, hk] at h; simp [hk, h]
    · simp only [alookup, if_neg hk] at h
      exact List.mem_cons_of_mem _ (ih h)

theorem alookup_eq_none_of_not_mem {α β : Type} [DecidableEq α] {k : α}
    {l : List (α × β)} (h : k ∉ l.map Prod.fst) : alookup k l = none := by
  induction l with
  | nil => rfl
  | cons hd t ih =>
    obtain ⟨k', v⟩ := hd
    simp only [List.map_cons, List.mem_cons] at h
    push_neg at h
    simp [alookup, h.1, ih h.2]

theorem alookup_filter_none {α β : Type} [DecidableEq α] {k : α}
    {l : List (α × β)} (q : α × β → Bool) (h : alookup k l = none) :
    alookup k (l.filter q) = none := by
  induction l with
  | nil => rfl
  | cons hd t ih =>
    obtain ⟨k', v⟩ := hd
    by_cases hk : k = k'
    · simp [alookup, hk] at h
    · simp only [alookup, if_neg hk] at h
      by_cases hq : q (k', v) <;> simp [List.filter, hq, alookup, hk, ih h]

theorem alookup_filter_nodup {α β : Type} [DecidableEq α] (k : α)
    (q : α × β → Bool) (l : List (α × β)) (hl : (l.map Prod.fst).Nodup) :
    alookup k (l.filter q) =
      (alookup k l).bind (fun v => if q (k, v) then some v else none) := by
  induction l with
  | nil => rfl
  | cons hd t ih =>
    obtain ⟨k', v⟩ := hd
    simp only [List.map_cons, List.nodup_cons] at hl
    by_cases hk : k = k'
    · subst hk
      have ht : alookup k t = none :=
        alookup_eq_none_of_not_mem hl.1
      by_cases hq : q (k, v)
      · simp [List.filter, hq, alookup]
      · simp [List.filter, hq, alookup, alookup_filter_none q ht]
    · by_cases hq : q (k', v) <;>
        simp [List.filter, hq, alookup, hk, ih hl.2]

theorem aupdate_eq_of_none {α β : Type} [DecidableEq α] {k : α}
    {l : List (α × β)} {g : β → β} (h : alookup k l = none) :
    aupdate k g l = l := by
  induction l with
  | nil => rfl
  | cons hd t ih =>
    obtain ⟨k', v⟩ := hd
    by_cases hk : k = k'
    · simp [alookup, hk] at h
    · simp only [alookup, if_neg hk] at h
      simp [aupdate, hk, ih h]

theorem length_filter_split {α : Type} (p : α → Bool) (l : List α) :
    (l.filter p).length + (l.filter (fun a => !(p a))).length = l.length := by
  induction l with
  | nil => rfl
  | cons hd t ih =>
    by_cases hp : p hd <;> simp [List.filter, hp] <;> omega

/-! Elementary facts about the modelled TTL cache. -/

theorem cache_get_user_set_self (c : Clock) (ch : Cache) (uid : Nat)
    (r : UserRow) (ttl : Int) (h : 0 < ttl) :
    cache_get_user c (cache_set_user c ch uid r ttl) uid = some r := by
  simp only [cache_get_user, cache_set_user, alookup_aset_self]
  rw [if_pos (by omega)]

theorem cache_get_user_del_self (c : Clock) (ch : Cache) (uid : Nat) :
    cache_get_user c (cache_del_user uid ch) uid = none := by
  simp [cache_get_user, cache_del_user, alookup_aerase_self]

theorem cache_get_user_del_ne (c : Clock) (ch : Cache) {uid j : Nat}
    (h : uid ≠ j) :
    cache_get_user c (cache_del_user j ch) uid = cache_get_user c ch uid := by
  simp [cache_get_user, cache_del_user, alookup_aerase_ne h]

theorem cache_get_user_set_admin (c c' : Clock) (ch : Cache) (uid j : Nat)
    (b : Bool) (ttl : Int) :
    cache_get_user c (cache_set_admin c' ch j b ttl) uid =
      cache_get_user c ch uid := rfl

theorem cache_get_user_del_admin (c : Clock) (ch : Cache) (uid j : Nat) :
    cache_get_user c (cache_del_admin j ch) uid = cache_get_user c ch uid := rfl

theorem cache_get_user_del_banned (c : Clock) (ch : Cache) (uid j : Nat) :
    cache_get_user c (cache_del_banned j ch) uid = cache_get_user c ch uid := rfl

theorem cache_get_admin_set_user (c c' : Clock) (ch : Cache) (uid j : Nat)
    (r : UserRow) (ttl : Int) :
    cache_get_admin c (cache_set_user c' ch j r ttl) uid =
      cache_get_admin c ch uid := rfl

theorem cache_get_admin_set_self (c : Clock) (ch : Cache) (uid : Nat)
    (b : Bool) (ttl : Int) (h : 0 < ttl) :
    cache_get_admin c (cache_set_admin c ch uid b ttl) uid = some b := by
  simp only [cache_get_admin, cache_set_admin, alookup_aset_self]
  rw [if_pos (by omega)]

theorem cache_get_admin_del_self (c : Clock) (ch : Cache) (uid : Nat) :
    cache_get_admin c (cache_del_admin uid ch) uid = none := by
  simp [cache_get_admin, cache_del_admin, alookup_aerase_self]

theorem cache_get_user_foldl_del_none (c : Clock)
    (L : List (String × AdSessionRow)) (ch : Cache) (uid : Nat)
    (h : cache_get_user c ch uid = none) :
    cache_get_user c
      (L.foldl (fun a p => cache_del_user p.2.user_id a) ch) uid = none := by
  induction L generalizing ch with
  | nil => exact h
  | cons hd t ih =>
    simp only [List.foldl_cons]
    apply ih
    by_cases hk : uid = hd.2.user_id
    · subst hk; exact cache_get_user_del_self c ch _
    · rw [cache_get_user_del_ne c ch hk]; exact h

theorem cache_get_user_foldl_del_mem (c : Clock)
    (L : List (String × AdSessionRow)) (ch : Cache) (uid : Nat)
    (h : uid ∈ L.map (fun p => p.2.user_id)) :
    cache_get_user c
      (L.foldl (fun a p => cache_del_user p.2.user_id a) ch) uid = none := by
  induction L generalizing ch with
  | nil => simp at h
  | cons hd t ih =>
    simp only [List.map_cons, List.mem_cons] at h
    simp only [List.foldl_cons]
    rcases h with h | h
    · subst h
      exact cache_get_user_foldl_del_none c t _ _
        (cache_get_user_del_self c ch _)
    · exact ih _ h

theorem cache_get_user_foldl_del_not_mem (c : Clock)
    (L : List (String × AdSessionRow)) (ch : Cache) (uid : Nat)
    (h : uid ∉ L.map (fun p => p.2.user_id)) :
    cache_get_user c
      (L.foldl (fun a p => cache_del_user p.2.user_id a) ch) uid =
      cache_get_user c ch uid := by
  induction L generalizing ch with
  | nil => rfl
  | cons hd t ih =>
    simp only [List.map_cons, List.mem_cons] at h
    push_neg at h
    simp only [List.foldl_cons]
    rw [ih _ h.2, cache_get_user_del_ne c ch h.1]

theorem cache_foldl_del_adminC (L : List (String × AdSessionRow)) (ch : Cache) :
    (L.foldl (fun a p => cache_del_user p.2.user_id a) ch).adminC = ch.adminC := by
  induction L generalizing ch with
  | nil => rfl
  | cons hd t ih => simp only [List.foldl_cons]; rw [ih]; rfl

theorem cache_foldl_del_bannedC (L : List (String × AdSessionRow)) (ch : Cache) :
    (L.foldl (fun a p => cache_del_user p.2.user_id a) ch).bannedC = ch.bannedC := by
  induction L generalizing ch with
  | nil => rfl
  | cons hd t ih => simp only [List.foldl_cons]; rw [ih]; rfl

/-! Evaluation lemmas for the read helpers. -/

theorem noFaults_rfail : noFaults.rfail = false := rfl

theorem noFaults_wfail : noFaults.wfail = false := rfl

theorem cache_set_user_bannedC (c : Clock) (ch : Cache) (uid : Nat)
    (r : UserRow) (ttl : Int) :
    (cache_set_user c ch uid r ttl).bannedC = ch.bannedC := rfl

theorem cache_set_admin_bannedC (c : Clock) (ch : Cache) (uid : Nat)
    (b : Bool) (ttl : Int) :
    (cache_set_admin c ch uid b ttl).bannedC = ch.bannedC := rfl

theorem get_user_hit (f : Faults) (c : Clock) (s : St) (uid : Nat)
    (r : UserRow) (h : cache_get_user c s.cache uid = some r) :
    get_user f c s uid = (some r, s) := by
  simp [get_user, h]

theorem get_user_found (c : Clock) (s : St) (uid : Nat) (row : UserRow)
    (hcu : user_cache_ok c s uid = true)
    (hu : alookup uid s.db.users = some row) :
    (get_user noFaults c s uid).1 = some row
    ∧ (get_user noFaults c s uid).2.db = s.db
    ∧ (get_user noFaults c s uid).2.rotation_calls = s.rotation_calls
    ∧ cache_get_user c (get_user noFaults c s uid).2.cache uid = some row
    ∧ (∀ j, cache_get_admin c (get_user noFaults c s uid).2.cache j =
        cache_get_admin c s.cache j)
    ∧ (get_user noFaults c s uid).2.cache.bannedC = s.cache.bannedC := by
  unfold user_cache_ok at hcu
  cases hh : cache_get_user c s.cache uid with
  | some r =>
    rw [hh] at hcu
    have hr : alookup uid s.db.users = some r := by simpa using hcu
    rw [hu] at hr
    obtain rfl : r = row := by
      have := hr.symm
      injection this
    refine ⟨?_, ?_, ?_, ?_, ?_, ?_⟩ <;>
      simp [get_user, hh]
  | none =>
    have h180 : (0 : Int) < 180 := by omega
    refine ⟨?_, ?_, ?_, ?_, ?_, ?_⟩ <;>
      simp [get_user, hh, noFaults, hu, st_cache,
        cache_get_user_set_self c s.cache uid row 180 h180,
        cache_get_admin_set_user, cache_set_user_bannedC]

theorem get_user_missing (c : Clock) (s : St) (uid : Nat)
    (hcu : user_cache_ok c s uid = true)
    (hu : alookup uid s.db.users = none) :
    get_user noFaults c s uid = (none, s) := by
  unfold user_cache_ok at hcu
  cases hh : cache_get_user c s.cache uid with
  | some r =>
    rw [hh] at hcu
    have hr : alookup uid s.db.users = some r := by simpa using hcu
    rw [hu] at hr
    exact absurd hr (by simp)
  | none => simp [get_user, hh, noFaults, hu]

theorem is_admin_eval (c : Clock) (s : St) (uid : Nat)
    (hca : admin_cache_ok c s uid = true) :
    (is_admin noFaults c s uid).1 = (alookup uid s.db.admins).isSome
    ∧ (is_admin noFaults c s uid).2.db = s.db
    ∧ (is_admin noFaults c s uid).2.rotation_calls = s.rotation_calls
    ∧ (∀ j, cache_get_user c (is_admin noFaults c s uid).2.cache j =
        cache_get_user c s.cache j)
    ∧ (is_admin noFaults c s uid).2.cache.bannedC = s.cache.bannedC := by
  unfold admin_cache_ok at hca
  cases hh : cache_get_admin c s.cache uid with
  | some b =>
    rw [hh] at hca
    have hb : b = (alookup uid s.db.admins).isSome := by simpa using hca
    refine ⟨?_, ?_, ?_, ?_, ?_⟩ <;>
      simp [is_admin, hh, hb]
  | none =>
    refine ⟨?_, ?_, ?_, ?_, ?_⟩ <;>
      simp [is_admin, hh, noFaults, st_cache, cache_get_user_set_admin,
        cache_set_admin_bannedC]

/-! Transfer lemmas for the cache-consistency side conditions. -/

theorem user_cache_ok_transfer (c : Clock) {s s' : St} (uid : Nat)
    (hc : cache_get_user c s'.cache uid = cache_get_user c s.cache uid)
    (hdb : s'.db = s.db) (h : user_cache_ok c s uid = true) :
    user_cache_ok c s' uid = true := by
  unfold user_cache_ok at *
  rw [hc, hdb]
  exact h

theorem admin_cache_ok_transfer (c : Clock) {s s' : St} (uid : Nat)
    (hc : cache_get_admin c s'.cache uid = cache_get_admin c s.cache uid)
    (hdb : s'.db = s.db) (h : admin_cache_ok c s uid = true) :
    admin_cache_ok c s' uid = true := by
  unfold admin_cache_ok at *
  rw [hc, hdb]
  exact h

/-! Scenario-evaluation lemmas for get_user_type. -/

theorem get_user_type_missing (c : Clock) (s : St) (uid : Nat)
    (hcu : user_cache_ok c s uid = true)
    (hu : alookup uid s.db.users = none) :
    get_user_type noFaults c s uid = (.ok "free", s) := by
  have h := get_user_missing c s uid hcu hu
  simp [get_user_type, h]

theorem get_user_type_free (c : Clock) (s : St) (uid : Nat) (row : UserRow)
    (hcu : user_cache_ok c s uid = true)
    (hca : admin_cache_ok c s uid = true)
    (hu : alookup uid s.db.users = some row)
    (hfree : row.user_type = "free")
    (hadm : alookup uid s.db.admins = none) :
    (get_user_type noFaults c s uid).1 = .ok "free"
    ∧ (get_user_type noFaults c s uid).2.db = s.db
    ∧ (get_user_type noFaults c s uid).2.rotation_calls = s.rotation_calls
    ∧ cache_get_user c (get_user_type noFaults c s uid).2.cache uid = some row := by
  obtain ⟨h1, h2, h3, h4, h5, h6⟩ := get_user_found c s uid row hcu hu
  rcases hg : get_user noFaults c s uid with ⟨u, s1⟩
  simp only [hg] at h1 h2 h3 h4 h5
  subst h1
  have hca1 : admin_cache_ok c s1 uid = true :=
    admin_cache_ok_transfer c uid (h5 uid) h2 hca
  obtain ⟨a1, a2, a3, a4, a5⟩ := is_admin_eval c s1 uid hca1
  rw [h2, hadm] at a1
  simp only [Option.isSome_none] at a1
  rcases ha : is_admin noFaults c s1 uid with ⟨b, s2⟩
  simp only [ha] at a1 a2 a3 a4
  subst a1
  refine ⟨?_, ?_, ?_, ?_⟩ <;>
    simp [get_user_type, hg, ha, hfree, a2, h2, a3, h3, a4 uid, h4]

theorem get_user_type_admin (c : Clock) (s : St) (uid : Nat) (row : UserRow)
    (a : AdminRow)
    (hcu : user_cache_ok c s uid = true)
    (hca : admin_cache_ok c s uid = true)
    (hu : alookup uid s.db.users = some row)
    (hadm : alookup uid s.db.admins = some a) :
    (get_user_type noFaults c s uid).1 = .ok "admin"
    ∧ (get_user_type noFaults c s uid).2.db = s.db
    ∧ (get_user_type noFaults c s uid).2.rotation_calls = s.rotation_calls
    ∧ cache_get_user c (get_user_type noFaults c s uid).2.cache uid = some row := by
  obtain ⟨h1, h2, h3, h4, h5, h6⟩ := get_user_found c s uid row hcu hu
  rcases hg : get_user noFaults c s uid with ⟨u, s1⟩
  simp only [hg] at h1 h2 h3 h4 h5
  subst h1
  have hca1 : admin_cache_ok c s1 uid = true :=
    admin_cache_ok_transfer c uid (h5 uid) h2 hca
  obtain ⟨a1, a2, a3, a4, a5⟩ := is_admin_eval c s1 uid hca1
  rw [h2, hadm] at a1
  simp only [Option.isSome_some] at a1
  rcases ha : is_admin noFaults c s1 uid with ⟨b, s2⟩
  simp only [ha] at a1 a2 a3 a4
  subst a1
  refine ⟨?_, ?_, ?_, ?_⟩ <;>
    simp [get_user_type, hg, ha, a2, h2, a3, h3, a4 uid, h4]

theorem get_user_type_paid (c : Clock) (s : St) (uid : Nat) (row : UserRow)
    (sub_end : Int)
    (hcu : user_cache_ok c s uid = true)
    (hca : admin_cache_ok c s uid = true)
    (hu : alookup uid s.db.users = some row)
    (hpaid : row.user_type = "paid")
    (hsub : row.subscription_end = some sub_end)
    (hnow : c.now < sub_end)
    (hadm : alookup uid s.db.admins = none) :
    (get_user_type noFaults c s uid).1 = .ok "paid"
    ∧ (get_user_type noFaults c s uid).2.db = s.db
    ∧ (get_user_type noFaults c s uid).2.rotation_calls = s.rotation_calls
    ∧ cache_get_user c (get_user_type noFaults c s uid).2.cache uid = some row := by
  obtain ⟨h1, h2, h3, h4, h5, h6⟩ := get_user_found c s uid row hcu hu
  rcases hg : get_user noFaults c s uid with ⟨u, s1⟩
  simp only [hg] at h1 h2 h3 h4 h5
  subst h1
  have hca1 : admin_cache_ok c s1 uid = true :=
    admin_cache_ok_transfer c uid (h5 uid) h2 hca
  obtain ⟨a1, a2, a3, a4, a5⟩ := is_admin_eval c s1 uid hca1
  rw [h2, hadm] at a1
  simp only [Option.isSome_none] at a1
  rcases ha : is_admin noFaults c s1 uid with ⟨b, s2⟩
  simp only [ha] at a1 a2 a3 a4
  subst a1
  refine ⟨?_, ?_, ?_, ?_⟩ <;>
    simp [get_user_type, hg, ha, hpaid, hsub, hnow, a2, h2, a3, h3, a4 uid, h4]

theorem get_user_type_downgrade (c : Clock) (s : St) (uid : Nat)
    (row : UserRow) (sub_end : Int)
    (hcu : user_cache_ok c s uid = true)
    (hca : admin_cache_ok c s uid = true)
    (hu : alookup uid s.db.users = some row)
    (hpaid : row.user_type = "paid")
    (hsub : row.subscription_end = some sub_end)
    (hnow : ¬ c.now < sub_end)
    (hadm : alookup uid s.db.admins = none) :
    (get_user_type noFaults c s uid).1 = .ok "free"
    ∧ (get_user_type noFaults c s uid).2.db.users =
        aupdate uid downgrade_row s.db.users
    ∧ (get_user_type noFaults c s uid).2.db.daily_usage = s.db.daily_usage
    ∧ (get_user_type noFaults c s uid).2.db.admins = s.db.admins
    ∧ (get_user_type noFaults c s uid).2.db.ad_sessions = s.db.ad_sessions
    ∧ (get_user_type noFaults c s uid).2.db.ad_verifications = s.db.ad_verifications
    ∧ (get_user_type noFaults c s uid).2.rotation_calls = s.rotation_calls
    ∧ cache_get_user c (get_user_type noFaults c s uid).2.cache uid = some row := by
  obtain ⟨h1, h2, h3, h4, h5, h6⟩ := get_user_found c s uid row hcu hu
  rcases hg : get_user noFaults c s uid with ⟨u, s1⟩
  simp only [hg] at h1 h2 h3 h4 h5
  subst h1
  have hca1 : admin_cache_ok c s1 uid = true :=
    admin_cache_ok_transfer c uid (h5 uid) h2 hca
  obtain ⟨a1, a2, a3, a4, a5⟩ := is_admin_eval c s1 uid hca1
  rw [h2, hadm] at a1
  simp only [Option.isSome_none] at a1
  rcases ha : is_admin noFaults c s1 uid with ⟨b, s2⟩
  simp only [ha] at a1 a2 a3 a4
  subst a1
  refine ⟨?_, ?_, ?_, ?_, ?_, ?_, ?_, ?_⟩ <;>
    simp [get_user_type, hg, ha, hpaid, hsub, hnow, noFaults_wfail, st_users,
      a2, h2, a3, h3, a4 uid, h4]

/-! Evaluation lemmas for the ad-balance reset. -/

theorem reset_noop (f : Faults) (c : Clock) (s : St) (uid : Nat) (row : UserRow)
    (h : cache_get_user c s.cache uid = some row)
    (hr : row.ad_downloads_reset_date = c.today) :
    reset_ad_downloads_if_needed f c s uid = (.ok (), s) := by
  simp [reset_ad_downloads_if_needed, get_user_hit f c s uid row h, hr]

theorem reset_missing (c : Clock) (s : St) (uid : Nat)
    (hcu : user_cache_ok c s uid = true)
    (hu : alookup uid s.db.users = none) :
    reset_ad_downloads_if_needed noFaults c s uid = (.ok (), s) := by
  simp [reset_ad_downloads_if_needed, get_user_missing c s uid hcu hu]

theorem get_user_type_free_hit (c : Clock) (s : St) (uid : Nat) (cr : UserRow)
    (hhit : cache_get_user c s.cache uid = some cr)
    (hca : admin_cache_ok c s uid = true)
    (hfree : cr.user_type = "free")
    (hadm : alookup uid s.db.admins = none) :
    (get_user_type noFaults c s uid).1 = .ok "free"
    ∧ (get_user_type noFaults c s uid).2.db = s.db
    ∧ (get_user_type noFaults c s uid).2.rotation_calls = s.rotation_calls
    ∧ cache_get_user c (get_user_type noFaults c s uid).2.cache uid = some cr := by
  have hg : get_user noFaults c s uid = (some cr, s) :=
    get_user_hit noFaults c s uid cr hhit
  obtain ⟨a1, a2, a3, a4, a5⟩ := is_admin_eval c s uid hca
  rw [hadm] at a1
  simp only [Option.isSome_none] at a1
  rcases ha : is_admin noFaults c s uid with ⟨b, s2⟩
  simp only [ha] at a1 a2 a3 a4
  subst a1
  refine ⟨?_, ?_, ?_, ?_⟩ <;>
    simp [get_user_type, hg, ha, hfree, a2, a3, a4 uid, hhit]

/-! The claims.  Each claim of the specification gets exactly one theorem,
with a closed witness instantiating its hypotheses where required. -/

/-- Claim C1: for every free-tier user whose ad_download_balance is positive
after the daily reset, the ad balance is authoritative: can_download is
rejected with the insufficient-ad-downloads reason exactly when the count
exceeds the balance and approved otherwise; on an approved charge,
increment_usage decrements the balance by exactly the count and leaves the
daily usage counter unchanged; the charge goes through a conditional update
that succeeds only if the stored balance is still at least the count at
write time, returning failure (not retrying) otherwise. -/
theorem C1_ad_balance_authoritative (c : Clock) (s : St) (uid : Nat)
    (row : UserRow) (count : Int)
    (hcu : user_cache_ok c s uid = true)
    (hca : admin_cache_ok c s uid = true)
    (hu : alookup uid s.db.users = some row)
    (hfree : row.user_type = "free")
    (hadm : alookup uid s.db.admins = none)
    (hreset : row.ad_downloads_reset_date = c.today)
    (hpos : 0 < row.ad_downloads) :
    ((can_download noFaults c s uid count).1 = .ok (false, .insufficientAds)
      ↔ row.ad_downloads < count)
    ∧ ((can_download noFaults c s uid count).1 = .ok (true, .empty)
      ↔ count ≤ row.ad_downloads)
    ∧ (count ≤ row.ad_downloads →
      (increment_usage noFaults c s uid count).1 = true
      ∧ alookup uid (increment_usage noFaults c s uid count).2.db.users =
          some { row with ad_downloads := row.ad_downloads - count }
      ∧ (increment_usage noFaults c s uid count).2.db.daily_usage =
          s.db.daily_usage)
    ∧ (row.ad_downloads < count →
      (increment_usage noFaults c s uid count).1 = false
      ∧ (increment_usage noFaults c s uid count).2.db = s.db)
    ∧ (∀ (s' : St) (cr row' : UserRow),
      cache_get_user c s'.cache uid = some cr →
      admin_cache_ok c s' uid = true →
      alookup uid s'.db.admins = none →
      cr.user_type = "free" →
      cr.ad_downloads_reset_date = c.today →
      0 < cr.ad_downloads →
      count ≤ cr.ad_downloads →
      alookup uid s'.db.users = some row' →
      row'.ad_downloads < count →
      (increment_usage noFaults c s' uid count).1 = false
      ∧ (increment_usage noFaults c s' uid count).2.db = s'.db) := by
  obtain ⟨t1, t2, t3, t4⟩ := get_user_type_free c s uid row hcu hca hu hfree hadm
  rcases hgt : get_user_type noFaults c s uid with ⟨tv, s2⟩
  simp only [hgt] at t1 t2 t3 t4
  subst t1
  have hres : reset_ad_downloads_if_needed noFaults c s2 uid = (.ok (), s2) :=
    reset_noop noFaults c s2 uid row t4 hreset
  have hgu : get_user noFaults c s2 uid = (some row, s2) :=
    get_user_hit noFaults c s2 uid row t4
  have hlook2 : alookup uid s2.db.users = some row := by rw [t2]; exact hu
  refine ⟨?_, ?_, ?_, ?_, ?_⟩
  · by_cases hc : row.ad_downloads < count <;>
      simp [can_download, hgt, hres, hgu, hpos, hc]
  · by_cases hc : row.ad_downloads < count
    all_goals simp [can_download, hgt, hres, hgu, hpos, hc]
    all_goals omega
  · intro hcnt
    have hnlt : ¬ row.ad_downloads < count := by omega
    refine ⟨?_, ?_, ?_⟩ <;>
      simp [increment_usage, hgt, hres, hgu, hpos, hnlt, noFaults_wfail,
        hlook2, hu, hcnt, bump_rotation, st_cache, st_users, cache_del_user,
        alookup_aupdate_self, deduct_row, t2]
  · intro hlt
    refine ⟨?_, ?_⟩ <;>
      simp [increment_usage, hgt, hres, hgu, hpos, hlt, t2]
  · intro s' cr row' hhit hca' hadm' hfree' hreset' hpos' hcnt' hlook' hlt'
    obtain ⟨u1, u2, u3, u4⟩ :=
      get_user_type_free_hit c s' uid cr hhit hca' hfree' hadm'
    rcases hgt' : get_user_type noFaults c s' uid with ⟨tv', s2'⟩
    simp only [hgt'] at u1 u2 u3 u4
    subst u1
    have hres' : reset_ad_downloads_if_needed noFaults c s2' uid = (.ok (), s2') :=
      reset_noop noFaults c s2' uid cr u4 hreset'
    have hgu' : get_user noFaults c s2' uid = (some cr, s2') :=
      get_user_hit noFaults c s2' uid cr u4
    have hlook2' : alookup uid s2'.db.users = some row' := by rw [u2]; exact hlook'
    have hnlt' : ¬ cr.ad_downloads < count := by omega
    have hnle' : ¬ count ≤ row'.ad_downloads := by omega
    refine ⟨?_, ?_⟩ <;>
      simp [increment_usage, hgt', hres', hgu', hpos', hnlt', noFaults_wfail,
        hlook2', hlook', hnle', u2]

/-- Witness for C1 at a concrete store: user 1 is free with ad balance 2
already reset today; charging 1 succeeds, leaves balance 1 and does not
touch the daily counter. -/
theorem C1_witness :
    (increment_usage noFaults ⟨100, 5⟩
        ⟨⟨[(1, ⟨"free", none, none, false, none, none, 2, 5, 0⟩)], [], [], [], []⟩,
          ⟨[], [], []⟩, 0⟩ 1 1).1 = true
    ∧ alookup 1 (increment_usage noFaults ⟨100, 5⟩
        ⟨⟨[(1, ⟨"free", none, none, false, none, none, 2, 5, 0⟩)], [], [], [], []⟩,
          ⟨[], [], []⟩, 0⟩ 1 1).2.db.users =
        some ⟨"free", none, none, false, none, none, 1, 5, 0⟩
    ∧ (increment_usage noFaults ⟨100, 5⟩
        ⟨⟨[(1, ⟨"free", none, none, false, none, none, 2, 5, 0⟩)], [], [], [], []⟩,
          ⟨[], [], []⟩, 0⟩ 1 1).2.db.daily_usage =
        (⟨⟨[(1, ⟨"free", none, none, false, none, none, 2, 5, 0⟩)], [], [], [], []⟩,
          ⟨[], [], []⟩, 0⟩ : St).db.daily_usage :=
  (C1_ad_balance_authoritative ⟨100, 5⟩
    ⟨⟨[(1, ⟨"free", none, none, false, none, none, 2, 5, 0⟩)], [], [], [], []⟩,
      ⟨[], [], []⟩, 0⟩ 1 ⟨"free", none, none, false, none, none, 2, 5, 0⟩ 1
    (by decide) (by decide) (by decide) (by decide) (by decide) (by decide)
    (by decide)).2.2.1 (by decide)

/-- Claim C2: for every free-tier user whose ad balance is zero after the
daily reset, the daily-counter path allows at most 1 file per calendar day:
can_download is rejected with the daily-limit reason exactly when today's
files_downloaded + count exceeds 1 and approved otherwise; on charge,
increment_usage upserts the (user, today) daily_usage row adding the count,
leaving the users table unchanged. -/
theorem C2_daily_counter_path (c : Clock) (s : St) (uid : Nat)
    (row : UserRow) (count daily : Int)
    (hcu : user_cache_ok c s uid = true)
    (hca : admin_cache_ok c s uid = true)
    (hu : alookup uid s.db.users = some row)
    (hfree : row.user_type = "free")
    (hadm : alookup uid s.db.admins = none)
    (hreset : row.ad_downloads_reset_date = c.today)
    (hzero : row.ad_downloads = 0)
    (hd : (alookup (uid, c.today) s.db.daily_usage).getD 0 = daily) :
    ((can_download noFaults c s uid count).1 = .ok (false, .dailyLimit)
      ↔ 1 < daily + count)
    ∧ ((can_download noFaults c s uid count).1 = .ok (true, .empty)
      ↔ daily + count ≤ 1)
    ∧ (daily + count ≤ 1 →
      (increment_usage noFaults c s uid count).1 = true
      ∧ alookup (uid, c.today)
          (increment_usage noFaults c s uid count).2.db.daily_usage =
          some (daily + count)
      ∧ (increment_usage noFaults c s uid count).2.db.users = s.db.users)
    ∧ (1 < daily + count →
      (increment_usage noFaults c s uid count).1 = false
      ∧ (increment_usage noFaults c s uid count).2.db = s.db) := by
  obtain ⟨t1, t2, t3, t4⟩ := get_user_type_free c s uid row hcu hca hu hfree hadm
  rcases hgt : get_user_type noFaults c s uid with ⟨tv, s2⟩
  simp only [hgt] at t1 t2 t3 t4
  subst t1
  have hres : reset_ad_downloads_if_needed noFaults c s2 uid = (.ok (), s2) :=
    reset_noop noFaults c s2 uid row t4 hreset
  have hgu : get_user noFaults c s2 uid = (some row, s2) :=
    get_user_hit noFaults c s2 uid row t4
  refine ⟨?_, ?_, ?_, ?_⟩
  · by_cases hc : 1 < daily + count
    all_goals simp [can_download, hgt, hres, hgu, hzero, get_daily_usage,
      noFaults_rfail, t2, hd, hc]
  · by_cases hc : 1 < daily + count
    all_goals simp [can_download, hgt, hres, hgu, hzero, get_daily_usage,
      noFaults_rfail, t2, hd, hc]
    all_goals omega
  · intro hcnt
    have hnc : ¬ 1 < daily + count := by omega
    refine ⟨?_, ?_, ?_⟩
    · simp [increment_usage, hgt, hres, hgu, hzero, get_daily_usage,
        noFaults_rfail, noFaults_wfail, t2, hd, hnc]
    · cases hrow : alookup (uid, c.today) s.db.daily_usage with
      | some n =>
        have hn : n = daily := by rw [hrow] at hd; simpa using hd
        simp [increment_usage, hgt, hres, hgu, hzero, get_daily_usage,
          noFaults_rfail, noFaults_wfail, t2, hd, hnc, bump_rotation, st_daily,
          daily_upsert_add, hrow, alookup_aupdate_self, hn]
      | none =>
        have hn : (0 : Int) = daily := by rw [hrow] at hd; simpa using hd
        have hnc2 : ¬ 1 < count := by omega
        simp [increment_usage, hgt, hres, hgu, hzero, get_daily_usage,
          noFaults_rfail, noFaults_wfail, t2, hd, hnc2, bump_rotation, st_daily,
          daily_upsert_add, hrow, alookup, ← hn]
    · simp [increment_usage, hgt, hres, hgu, hzero, get_daily_usage,
        noFaults_rfail, noFaults_wfail, t2, hd, hnc, bump_rotation, st_daily]
  · intro hc
    refine ⟨?_, ?_⟩ <;>
      simp [increment_usage, hgt, hres, hgu, hzero, get_daily_usage,
        noFaults_rfail, t2, hd, hc]

/-- Witness for C2 at a concrete store: user 2 is free with exhausted ad
balance and one download already recorded today; a further request of 1 is
rejected with the daily-limit reason. -/
theorem C2_witness :
    (can_download noFaults ⟨100, 5⟩
        ⟨⟨[(2, ⟨"free", none, none, false, none, none, 0, 5, 0⟩)],
          [((2, 5), 1)], [], [], []⟩, ⟨[], [], []⟩, 0⟩ 2 1).1 =
      .ok (false, .dailyLimit) :=
  ((C2_daily_counter_path ⟨100, 5⟩
    ⟨⟨[(2, ⟨"free", none, none, false, none, none, 0, 5, 0⟩)],
      [((2, 5), 1)], [], [], []⟩, ⟨[], [], []⟩, 0⟩ 2
    ⟨"free", none, none, false, none, none, 0, 5, 0⟩ 1 1
    (by decide) (by decide) (by decide) (by decide) (by decide) (by decide)
    (by decide) (by decide)).1).mpr (by decide)

/-- Claim C3 counterexample: a user stored with tier paid and an expired
subscription_end who is also in the admins table is reported as admin, not
free, and the stored row keeps its paid tier (no downgrade is persisted),
contradicting the claim for that user. -/
theorem C3_counterexample :
    (get_user_type noFaults ⟨100, 5⟩
      ⟨⟨[(1, ⟨"paid", some 50, some "referral", false, none, none, 0, 5, 0⟩)],
        [], [(1, ⟨7, 0⟩)], [], []⟩, ⟨[], [], []⟩, 0⟩ 1).1 = .ok "admin"
    ∧ (get_user_type noFaults ⟨100, 5⟩
      ⟨⟨[(1, ⟨"paid", some 50, some "referral", false, none, none, 0, 5, 0⟩)],
        [], [(1, ⟨7, 0⟩)], [], []⟩, ⟨[], [], []⟩, 0⟩ 1).1 ≠ .ok "free"
    ∧ (alookup 1 (get_user_type noFaults ⟨100, 5⟩
      ⟨⟨[(1, ⟨"paid", some 50, some "referral", false, none, none, 0, 5, 0⟩)],
        [], [(1, ⟨7, 0⟩)], [], []⟩, ⟨[], [], []⟩, 0⟩ 1).2.db.users).map
        UserRow.user_type = some "paid" := by decide

/-- Claim C3 (amended: restricted to non-admin users, as the admin check
precedes the expiry check): for every non-admin user stored with tier paid
and a subscription_end in the past, get_user_type returns free and persists
the downgrade — the stored row becomes tier free with subscription_end and
premium_source cleared, so a direct read of the stored tier yields free. -/
theorem C3_lazy_downgrade_persisted (c : Clock) (s : St) (uid : Nat)
    (row : UserRow) (sub_end : Int)
    (hcu : user_cache_ok c s uid = true)
    (hca : admin_cache_ok c s uid = true)
    (hu : alookup uid s.db.users = some row)
    (hpaid : row.user_type = "paid")
    (hsub : row.subscription_end = some sub_end)
    (hpast : sub_end < c.now)
    (hadm : alookup uid s.db.admins = none) :
    (get_user_type noFaults c s uid).1 = .ok "free"
    ∧ alookup uid (get_user_type noFaults c s uid).2.db.users =
        some { row with
                user_type := "free"
                subscription_end := none
                premium_source := none } := by
  have hnow : ¬ c.now < sub_end := by omega
  obtain ⟨d1, d2, d3, d4, d5, d6, d7, d8⟩ :=
    get_user_type_downgrade c s uid row sub_end hcu hca hu hpaid hsub hnow hadm
  refine ⟨d1, ?_⟩
  rw [d2, alookup_aupdate_self, hu]
  rfl

/-- Witness for C3 (amended) at a concrete store: a non-admin user stored
paid with subscription_end 50 read at time 100 is reported free and the
stored row is downgraded. -/
theorem C3_witness :
    (get_user_type noFaults ⟨100, 5⟩
      ⟨⟨[(4, ⟨"paid", some 50, some "referral", false, none, none, 0, 5, 0⟩)],
        [], [], [], []⟩, ⟨[], [], []⟩, 0⟩ 4).1 = .ok "free"
    ∧ alookup 4 (get_user_type noFaults ⟨100, 5⟩
      ⟨⟨[(4, ⟨"paid", some 50, some "referral", false, none, none, 0, 5, 0⟩)],
        [], [], [], []⟩, ⟨[], [], []⟩, 0⟩ 4).2.db.users =
        some ⟨"free", none, none, false, none, none, 0, 5, 0⟩ :=
  C3_lazy_downgrade_persisted ⟨100, 5⟩
    ⟨⟨[(4, ⟨"paid", some 50, some "referral", false, none, none, 0, 5, 0⟩)],
      [], [], [], []⟩, ⟨[], [], []⟩, 0⟩ 4
    ⟨"paid", some 50, some "referral", false, none, none, 0, 5, 0⟩ 50
    (by decide) (by decide) (by decide) (by decide) (by decide) (by decide)
    (by decide)

/-- Claim C4 counterexample: for an id with no stored user row there is no
active premium, yet set_premium returns failure (the UPDATE matches no row),
contradicting the claim that any grant succeeds when no active premium
exists. -/
theorem C4_counterexample :
    (set_premium noFaults ⟨100, 5⟩
      ⟨⟨[], [], [], [], []⟩, ⟨[], [], []⟩, 0⟩ 7 500 "manual").1 = false := by
  decide

/-- Claim C4 (amended: restricted to ids with a stored user row; a call for
an unknown id reports failure and writes nothing): a stored user holding an
unexpired premium whose premium_source is not ads rejects an ads-source
grant leaving the store unchanged; a grant with a non-ads source, or any
grant when no active premium exists, succeeds and overwrites tier, expiry
and source. -/
theorem C4_premium_precedence (c : Clock) (s : St) (uid : Nat)
    (row : UserRow) (expiry : Int) (source : String)
    (hcu : user_cache_ok c s uid = true)
    (hu : alookup uid s.db.users = some row) :
    (row.user_type = "paid" →
      ∀ e, row.subscription_end = some e → c.now < e →
      row.premium_source ≠ some "ads" → source = "ads" →
      (set_premium noFaults c s uid expiry source).1 = false
      ∧ (set_premium noFaults c s uid expiry source).2.db = s.db)
    ∧ ((source ≠ "ads" ∨ active_premium c row = false) →
      (set_premium noFaults c s uid expiry source).1 = true
      ∧ alookup uid (set_premium noFaults c s uid expiry source).2.db.users =
          some { row with
                  user_type := "paid"
                  subscription_end := some expiry
                  premium_source := some source })
    ∧ (∀ (s' : St), user_cache_ok c s' uid = true →
      alookup uid s'.db.users = none →
      (set_premium noFaults c s' uid expiry source).1 = false
      ∧ (set_premium noFaults c s' uid expiry source).2.db = s'.db) := by
  obtain ⟨h1, h2, h3, h4, h5, h6⟩ := get_user_found c s uid row hcu hu
  rcases hg : get_user noFaults c s uid with ⟨u, s1⟩
  simp only [hg] at h1 h2 h3 h4 h5
  subst h1
  have hlook1 : alookup uid s1.db.users = some row := by rw [h2]; exact hu
  refine ⟨?_, ?_, ?_⟩
  · intro hpaid e hsub hnow hne hsrc
    have hblock : (active_premium c row && (source == "ads")
        && !(row.premium_source == some "ads")) = true := by
      have ha : active_premium c row = true := by
        simp [active_premium, hpaid, hsub, hnow]
      have hb : (source == "ads") = true := by simp [hsrc]
      have hc : (row.premium_source == some "ads") = false := by
        simpa using hne
      simp [ha, hb, hc]
    refine ⟨?_, ?_⟩ <;> simp [set_premium, hg, hblock, h2]
  · intro hB
    have hblock : (active_premium c row && (source == "ads")
        && !(row.premium_source == some "ads")) = false := by
      rcases hB with h | h
      · have : (source == "ads") = false := by simpa using h
        simp [this]
      · simp [h]
    refine ⟨?_, ?_⟩ <;>
      simp [set_premium, hg, hblock, noFaults_wfail, st_users, hlook1,
        alookup_aupdate_self, premium_row]
  · intro s' hcu' hu'
    have hg' : get_user noFaults c s' uid = (none, s') :=
      get_user_missing c s' uid hcu' hu'
    have hupd : aupdate uid (premium_row expiry source) s'.db.users =
        s'.db.users := aupdate_eq_of_none hu'
    refine ⟨?_, ?_⟩ <;>
      simp [set_premium, hg', noFaults_wfail, st_users, hu', hupd]

/-- Witness for C4 (amended) at a concrete store: user 3 is paid via
referral until 500 at time 100; an ads grant is rejected and the store is
unchanged. -/
theorem C4_witness :
    (set_premium noFaults ⟨100, 5⟩
      ⟨⟨[(3, ⟨"paid", some 500, some "referral", false, none, none, 0, 5, 0⟩)],
        [], [], [], []⟩, ⟨[], [], []⟩, 0⟩ 3 900 "ads").1 = false
    ∧ (set_premium noFaults ⟨100, 5⟩
      ⟨⟨[(3, ⟨"paid", some 500, some "referral", false, none, none, 0, 5, 0⟩)],
        [], [], [], []⟩, ⟨[], [], []⟩, 0⟩ 3 900 "ads").2.db =
      (⟨⟨[(3, ⟨"paid", some 500, some "referral", false, none, none, 0, 5, 0⟩)],
        [], [], [], []⟩, ⟨[], [], []⟩, 0⟩ : St).db :=
  (C4_premium_precedence ⟨100, 5⟩
    ⟨⟨[(3, ⟨"paid", some 500, some "referral", false, none, none, 0, 5, 0⟩)],
      [], [], [], []⟩, ⟨[], [], []⟩, 0⟩ 3
    ⟨"paid", some 500, some "referral", false, none, none, 0, 5, 0⟩ 900 "ads"
    (by decide) (by decide)).1 (by decide) 500 (by decide) (by decide)
    (by decide) (by decide)

theorem cache_get_admin_del_user (c : Clock) (ch : Cache) (uid j : Nat) :
    cache_get_admin c (cache_del_user j ch) uid = cache_get_admin c ch uid := rfl

theorem cache_get_admin_del_banned (c : Clock) (ch : Cache) (uid j : Nat) :
    cache_get_admin c (cache_del_banned j ch) uid = cache_get_admin c ch uid := rfl

/-- Claim C5 counterexample: set_premium succeeds while a live cache entry
for the user exists, and does not invalidate it: the next read of the user
record still returns the pre-mutation cached row (tier free) although the
store now holds tier paid. -/
theorem C5_counterexample :
    (set_premium noFaults ⟨100, 5⟩
      ⟨⟨[(3, ⟨"free", none, none, false, none, none, 0, 5, 0⟩)], [], [], [], []⟩,
        ⟨[(3, ⟨⟨"free", none, none, false, none, none, 0, 5, 0⟩, 1000⟩)], [], []⟩,
        0⟩ 3 500 "manual").1 = true
    ∧ ((get_user noFaults ⟨100, 5⟩
        (set_premium noFaults ⟨100, 5⟩
          ⟨⟨[(3, ⟨"free", none, none, false, none, none, 0, 5, 0⟩)], [], [], [], []⟩,
            ⟨[(3, ⟨⟨"free", none, none, false, none, none, 0, 5, 0⟩, 1000⟩)], [], []⟩,
            0⟩ 3 500 "manual").2 3).1).map UserRow.user_type = some "free"
    ∧ (alookup 3 (set_premium noFaults ⟨100, 5⟩
        ⟨⟨[(3, ⟨"free", none, none, false, none, none, 0, 5, 0⟩)], [], [], [], []⟩,
          ⟨[(3, ⟨⟨"free", none, none, false, none, none, 0, 5, 0⟩, 1000⟩)], [], []⟩,
          0⟩ 3 500 "manual").2.db.users).map UserRow.user_type = some "paid" := by
  decide

/-- Claim C5 (amended): ban/unban, admin add/remove, session writes,
ad-balance writes (the add_ad_downloads grant, the daily reset, and the
ad-path charge of increment_usage) and rotation writes delete the affected
cache entries before returning; but set_user_type, set_premium, the
lazy-downgrade write inside get_user_type, and both thumbnail writes
perform no cache invalidation, so a pre-mutation user cache entry survives
them and a read within the TTL returns the stale value. -/
theorem C5_cache_invalidation_coverage (c : Clock) (s : St) (uid : Nat)
    (r : UserRow) (by2 : Nat) (k expiry days : Int)
    (source ty fid : String) (tok : Option String)
    (hhit : cache_get_user c s.cache uid = some r) :
    cache_get_user c (ban_user noFaults s uid).2.cache uid = none
    ∧ cache_get_user c (unban_user noFaults s uid).2.cache uid = none
    ∧ (cache_get_user c (add_admin noFaults c s uid by2).2.cache uid = none
      ∧ cache_get_admin c (add_admin noFaults c s uid by2).2.cache uid = none)
    ∧ (cache_get_user c (remove_admin noFaults s uid).2.cache uid = none
      ∧ cache_get_admin c (remove_admin noFaults s uid).2.cache uid = none)
    ∧ cache_get_user c (set_user_session noFaults s uid tok).2.cache uid = none
    ∧ cache_get_user c (add_ad_downloads noFaults s uid k).2.cache uid = none
    ∧ cache_get_user c (rotate_user_shortener noFaults c s uid).2.cache uid = none
    ∧ (r.ad_downloads_reset_date ≠ c.today →
      cache_get_user c
        (reset_ad_downloads_if_needed noFaults c s uid).2.cache uid = none)
    ∧ (admin_cache_ok c s uid = true → alookup uid s.db.admins = none →
      r.user_type = "free" → r.ad_downloads_reset_date = c.today →
      0 < r.ad_downloads → ∀ (row2 : UserRow) (count : Int),
      alookup uid s.db.users = some row2 →
      count ≤ r.ad_downloads → count ≤ row2.ad_downloads →
      cache_get_user c (increment_usage noFaults c s uid count).2.cache uid = none)
    ∧ cache_get_user c (set_user_type noFaults c s uid ty days).2.cache uid = some r
    ∧ cache_get_user c (set_premium noFaults c s uid expiry source).2.cache uid = some r
    ∧ cache_get_user c (set_custom_thumbnail noFaults s uid fid).2.cache uid = some r
    ∧ cache_get_user c (delete_custom_thumbnail noFaults s uid).2.cache uid = some r
    ∧ (admin_cache_ok c s uid = true → alookup uid s.db.admins = none →
      r.user_type = "paid" → ∀ e, r.subscription_end = some e → ¬ c.now < e →
      cache_get_user c (get_user_type noFaults c s uid).2.cache uid = some r) := by
  have hg : get_user noFaults c s uid = (some r, s) :=
    get_user_hit noFaults c s uid r hhit
  refine ⟨?_, ?_, ⟨?_, ?_⟩, ⟨?_, ?_⟩, ?_, ?_, ?_, ?_, ?_, ?_, ?_, ?_, ?_, ?_⟩
  · simp [ban_user, noFaults_wfail, st_cache, st_users, cache_get_user_del_self]
  · simp [unban_user, noFaults_wfail, st_cache, st_users, cache_get_user_del_self]
  · simp [add_admin, noFaults_wfail, st_cache, st_admins, cache_get_user_del_self]
  · simp [add_admin, noFaults_wfail, st_cache, st_admins,
      cache_get_admin_del_user, cache_get_admin_del_self]
  · simp [remove_admin, noFaults_wfail, st_cache, st_admins, cache_get_user_del_self]
  · simp [remove_admin, noFaults_wfail, st_cache, st_admins,
      cache_get_admin_del_user, cache_get_admin_del_self]
  · simp [set_user_session, noFaults_wfail, st_cache, st_users, cache_get_user_del_self]
  · simp [add_ad_downloads, noFaults_wfail, st_cache, st_users, cache_get_user_del_self]
  · simp [rotate_user_shortener, hg, noFaults_wfail, st_cache, st_users,
      cache_get_user_del_self]
  · intro hne
    simp [reset_ad_downloads_if_needed, hg, hne, noFaults_wfail, st_cache,
      st_users, cache_get_user_del_self]
  · intro hcaok hadm hfree hreset hpos row2 count hlook hc1 hc2
    obtain ⟨u1, u2, u3, u4⟩ :=
      get_user_type_free_hit c s uid r hhit hcaok hfree hadm
    rcases hgt : get_user_type noFaults c s uid with ⟨tv, s2⟩
    simp only [hgt] at u1 u2 u3 u4
    subst u1
    have hres : reset_ad_downloads_if_needed noFaults c s2 uid = (.ok (), s2) :=
      reset_noop noFaults c s2 uid r u4 hreset
    have hgu : get_user noFaults c s2 uid = (some r, s2) :=
      get_user_hit noFaults c s2 uid r u4
    have hlook2 : alookup uid s2.db.users = some row2 := by rw [u2]; exact hlook
    have hnlt : ¬ r.ad_downloads < count := by omega
    simp [increment_usage, hgt, hres, hgu, hpos, hnlt, noFaults_wfail,
      hlook2, hc2, bump_rotation, st_cache, st_users, cache_get_user_del_self]
  · simp only [set_user_type, noFaults_wfail, Bool.false_eq_true, if_false]
    split <;> simp [st_users, hhit]
  · simp only [set_premium, hg]
    split
    · simpa using hhit
    · simp [noFaults_wfail, st_users, hhit]
  · simp [set_custom_thumbnail, noFaults_wfail, st_users, hhit]
  · simp [delete_custom_thumbnail, noFaults_wfail, st_users, hhit]
  · intro hcaok hadm hpaid e hsub hnow
    obtain ⟨a1, a2, a3, a4, a5⟩ := is_admin_eval c s uid hcaok
    rw [hadm] at a1
    simp only [Option.isSome_none] at a1
    rcases ha : is_admin noFaults c s uid with ⟨b, s2⟩
    simp only [ha] at a1 a2 a3 a4
    subst a1
    simp [get_user_type, hg, ha, hpaid, hsub, hnow, noFaults_wfail, st_users,
      a4 uid, hhit]

/-- Witness for C5 (amended) at a concrete store with a live cache entry for
user 3: after ban_user the user cache entry is gone. -/
theorem C5_witness :
    cache_get_user ⟨100, 5⟩ (ban_user noFaults
      ⟨⟨[(3, ⟨"free", none, none, false, none, none, 0, 5, 0⟩)], [], [], [], []⟩,
        ⟨[(3, ⟨⟨"free", none, none, false, none, none, 0, 5, 0⟩, 1000⟩)], [], []⟩,
        0⟩ 3).2.cache 3 = none :=
  (C5_cache_invalidation_coverage ⟨100, 5⟩
    ⟨⟨[(3, ⟨"free", none, none, false, none, none, 0, 5, 0⟩)], [], [], [], []⟩,
      ⟨[(3, ⟨⟨"free", none, none, false, none, none, 0, 5, 0⟩, 1000⟩)], [], []⟩,
      0⟩ 3 ⟨"free", none, none, false, none, none, 0, 5, 0⟩ 1 1 500 30
    "manual" "free" "tn" none (by decide)).1

/-! Totality under injected storage faults. -/

theorem get_user_type_ok_of_no_wfail (f : Faults) (c : Clock) (s : St)
    (uid : Nat) (hw : f.wfail = false) :
    ∃ v s', get_user_type f c s uid = (.ok v, s') := by
  rcases hg : get_user f c s uid with ⟨u, s1⟩
  cases u with
  | none => exact ⟨"free", s1, by simp [get_user_type, hg]⟩
  | some r =>
    rcases ha : is_admin f c s1 uid with ⟨b, s2⟩
    cases b with
    | true => exact ⟨"admin", s2, by simp [get_user_type, hg, ha]⟩
    | false =>
      by_cases hp : r.user_type = "paid"
      · cases hsub : r.subscription_end with
        | none => exact ⟨"free", s2, by simp [get_user_type, hg, ha, hp, hsub]⟩
        | some e =>
          by_cases hn : c.now < e
          · exact ⟨"paid", s2, by simp [get_user_type, hg, ha, hp, hsub, hn]⟩
          · exact ⟨"free", st_users s2 (aupdate uid downgrade_row s2.db.users),
              by simp [get_user_type, hg, ha, hp, hsub, hn, hw]⟩
      · exact ⟨"free", s2, by simp [get_user_type, hg, ha, hp]⟩

theorem reset_ok_of_no_wfail (f : Faults) (c : Clock) (s : St) (uid : Nat)
    (hw : f.wfail = false) :
    ∃ s', reset_ad_downloads_if_needed f c s uid = (.ok (), s') := by
  rcases hg : get_user f c s uid with ⟨u, s1⟩
  cases u with
  | none => exact ⟨s1, by simp [reset_ad_downloads_if_needed, hg]⟩
  | some r =>
    by_cases hr : r.ad_downloads_reset_date = c.today
    · exact ⟨s1, by simp [reset_ad_downloads_if_needed, hg, hr]⟩
    · exact ⟨st_cache (st_users s1 (aupdate uid (reset_row c.today) s1.db.users))
          (cache_del_user uid s1.cache),
        by simp [reset_ad_downloads_if_needed, hg, hr, hw]⟩

theorem can_download_ok_of_no_wfail (f : Faults) (c : Clock) (s : St)
    (uid : Nat) (count : Int) (hw : f.wfail = false) :
    ∃ v s', can_download f c s uid count = (.ok v, s') := by
  obtain ⟨t, s1, hv⟩ := get_user_type_ok_of_no_wfail f c s uid hw
  obtain ⟨s2, hres⟩ := reset_ok_of_no_wfail f c s1 uid hw
  rcases hgu : get_user f c s2 uid with ⟨u, s3⟩
  simp only [can_download, hv, hres, hgu]
  split
  · exact ⟨_, _, rfl⟩
  · split
    · split
      · exact ⟨_, _, rfl⟩
      · exact ⟨_, _, rfl⟩
    · split
      · exact ⟨_, _, rfl⟩
      · exact ⟨_, _, rfl⟩

/-- Claim C6 counterexample: with a storage engine whose write statement
raises, the lazy-downgrade write inside get_user_type and the ad-reset
write inside reset_ad_downloads_if_needed have no exception handler, so
get_user_type, can_download and reset_ad_downloads_if_needed all let the
storage fault escape their boundary as an error result. -/
theorem C6_counterexample :
    (get_user_type ⟨false, true⟩ ⟨100, 5⟩
      ⟨⟨[(5, ⟨"paid", some 50, some "referral", false, none, none, 0, 5, 0⟩)],
        [], [], [], []⟩, ⟨[], [], []⟩, 0⟩ 5).1 = .error ()
    ∧ (can_download ⟨false, true⟩ ⟨100, 5⟩
      ⟨⟨[(5, ⟨"paid", some 50, some "referral", false, none, none, 0, 5, 0⟩)],
        [], [], [], []⟩, ⟨[], [], []⟩, 0⟩ 5 1).1 = .error ()
    ∧ (reset_ad_downloads_if_needed ⟨false, true⟩ ⟨100, 5⟩
      ⟨⟨[(6, ⟨"free", none, none, false, none, none, 0, 4, 0⟩)],
        [], [], [], []⟩, ⟨[], [], []⟩, 0⟩ 6).1 = .error () := by decide

/-- Claim C6 (amended): three operations — get_user_type, can_download and
the ad-balance reset reset_ad_downloads_if_needed — have no exception
handler of their own and propagate a storage write fault (raised by the
unprotected lazy-downgrade or ad-reset write) past their boundary; each of
the three is total whenever no write statement faults, and returns an
error only when a write statement faults.  Operations that wrap their body
in try/except convert an escaping fault into their typed failure value: in
particular increment_usage, which calls the unprotected helpers, returns
False with no further effect whenever get_user_type or the reset
propagates an error out of it. -/
theorem C6_fault_totality :
    (∀ (f : Faults) (c : Clock) (s : St) (uid : Nat), f.wfail = false →
      ∃ v s', get_user_type f c s uid = (.ok v, s'))
    ∧ (∀ (f : Faults) (c : Clock) (s : St) (uid : Nat) (count : Int),
      f.wfail = false →
      ∃ v s', can_download f c s uid count = (.ok v, s'))
    ∧ (∀ (f : Faults) (c : Clock) (s : St) (uid : Nat), f.wfail = false →
      ∃ s', reset_ad_downloads_if_needed f c s uid = (.ok (), s'))
    ∧ (∀ (f : Faults) (c : Clock) (s : St) (uid : Nat) (e : Unit) (s' : St),
      get_user_type f c s uid = (.error e, s') → f.wfail = true)
    ∧ (∀ (f : Faults) (c : Clock) (s : St) (uid : Nat) (count : Int)
      (e : Unit) (s' : St),
      can_download f c s uid count = (.error e, s') → f.wfail = true)
    ∧ (∀ (f : Faults) (c : Clock) (s : St) (uid : Nat) (e : Unit) (s' : St),
      reset_ad_downloads_if_needed f c s uid = (.error e, s') → f.wfail = true)
    ∧ (∀ (f : Faults) (c : Clock) (s : St) (uid : Nat) (count : Int)
      (e : Unit) (s' : St),
      get_user_type f c s uid = (.error e, s') →
      increment_usage f c s uid count = (false, s'))
    ∧ (∀ (f : Faults) (c : Clock) (s : St) (uid : Nat) (count : Int) (t : String)
      (s1 : St) (e : Unit) (s' : St),
      get_user_type f c s uid = (.ok t, s1) → ¬ (t = "admin" ∨ t = "paid") →
      reset_ad_downloads_if_needed f c s1 uid = (.error e, s') →
      increment_usage f c s uid count = (false, s')) := by
  refine ⟨get_user_type_ok_of_no_wfail, can_download_ok_of_no_wfail,
    reset_ok_of_no_wfail, ?_, ?_, ?_, ?_, ?_⟩
  · intro f c s uid e s' herr
    cases hw : f.wfail with
    | true => rfl
    | false =>
      obtain ⟨v, s1, hv⟩ := get_user_type_ok_of_no_wfail f c s uid hw
      rw [herr] at hv
      exact absurd (congrArg Prod.fst hv) (by simp)
  · intro f c s uid count e s' herr
    cases hw : f.wfail with
    | true => rfl
    | false =>
      obtain ⟨v, s1, hv⟩ := can_download_ok_of_no_wfail f c s uid count hw
      rw [herr] at hv
      exact absurd (congrArg Prod.fst hv) (by simp)
  · intro f c s uid e s' herr
    cases hw : f.wfail with
    | true => rfl
    | false =>
      obtain ⟨s1, hv⟩ := reset_ok_of_no_wfail f c s uid hw
      rw [herr] at hv
      exact absurd (congrArg Prod.fst hv) (by simp)
  · intro f c s uid count e s' herr
    simp [increment_usage, herr]
  · intro f c s uid count t s1 e s' hok ht herr
    simp [increment_usage, hok, ht, herr]

/-- Claim C7: mark_ad_session_used succeeds exactly when the session exists
and is currently unused; marking an already-used session reports failure
with no state change; after a successful mark the used flag is true and a
second call fails leaving the state untouched (used is monotonic). -/
theorem C7_session_single_use (s : St) (session_id : String) :
    ((mark_ad_session_used noFaults s session_id).1 = true ↔
      ∃ sess, alookup session_id s.db.ad_sessions = some sess
        ∧ sess.used = false)
    ∧ (∀ sess, alookup session_id s.db.ad_sessions = some sess →
      sess.used = true → mark_ad_session_used noFaults s session_id = (false, s))
    ∧ (∀ sess, alookup session_id s.db.ad_sessions = some sess →
      sess.used = false →
      (mark_ad_session_used noFaults s session_id).1 = true
      ∧ alookup session_id
          (mark_ad_session_used noFaults s session_id).2.db.ad_sessions =
          some { sess with used := true }
      ∧ mark_ad_session_used noFaults
          (mark_ad_session_used noFaults s session_id).2 session_id =
          (false, (mark_ad_session_used noFaults s session_id).2)) := by
  refine ⟨?_, ?_, ?_⟩
  · constructor
    · intro h
      cases hl : alookup session_id s.db.ad_sessions with
      | none => simp [mark_ad_session_used, noFaults_wfail, hl] at h
      | some sess =>
        cases hu : sess.used with
        | true => simp [mark_ad_session_used, noFaults_wfail, hl, hu] at h
        | false => exact ⟨sess, rfl, hu⟩
    · rintro ⟨sess, hl, hu⟩
      simp [mark_ad_session_used, noFaults_wfail, hl, hu]
  · intro sess hl hu
    simp [mark_ad_session_used, noFaults_wfail, hl, hu]
  · intro sess hl hu
    have hm : mark_ad_session_used noFaults s session_id =
        (true, st_sessions s (aupdate session_id (fun s0 => { s0 with used := true })
          s.db.ad_sessions)) := by
      simp [mark_ad_session_used, noFaults_wfail, hl, hu]
    have h2 : alookup session_id (st_sessions s (aupdate session_id
        (fun s0 => { s0 with used := true }) s.db.ad_sessions)).db.ad_sessions =
        some { sess with used := true } := by
      simp [st_sessions, alookup_aupdate_self, hl]
    refine ⟨by rw [hm], ?_, ?_⟩
    · rw [hm]; exact h2
    · rw [hm]
      simp [mark_ad_session_used, noFaults_wfail, h2]

/-- Witness for C7 at a concrete store: session "a" of user 1 is unused;
the first mark succeeds and flips used, the second mark fails and changes
nothing. -/
theorem C7_witness :
    (mark_ad_session_used noFaults
      ⟨⟨[], [], [], [("a", ⟨1, 90, false⟩)], []⟩, ⟨[], [], []⟩, 0⟩ "a").1 = true
    ∧ alookup "a" (mark_ad_session_used noFaults
      ⟨⟨[], [], [], [("a", ⟨1, 90, false⟩)], []⟩, ⟨[], [], []⟩, 0⟩ "a").2.db.ad_sessions =
      some ⟨1, 90, true⟩
    ∧ mark_ad_session_used noFaults (mark_ad_session_used noFaults
      ⟨⟨[], [], [], [("a", ⟨1, 90, false⟩)], []⟩, ⟨[], [], []⟩, 0⟩ "a").2 "a" =
      (false, (mark_ad_session_used noFaults
        ⟨⟨[], [], [], [("a", ⟨1, 90, false⟩)], []⟩, ⟨[], [], []⟩, 0⟩ "a").2) :=
  (C7_session_single_use
    ⟨⟨[], [], [], [("a", ⟨1, 90, false⟩)], []⟩, ⟨[], [], []⟩, 0⟩ "a").2.2
    ⟨1, 90, false⟩ (by decide) (by decide)

/-- Claim C8: the sweep deletes exactly the ad sessions and verification
codes created more than 60 minutes before the call (newer or equal ones are
retained), its returned counts equal the numbers of rows actually removed,
it deletes the user cache entry of every user whose session was swept, and
it touches no other cache entry (in particular none for verification
codes). -/
theorem C8_sweep_correctness (c : Clock) (s : St)
    (hnodupS : (s.db.ad_sessions.map Prod.fst).Nodup)
    (hnodupV : (s.db.ad_verifications.map Prod.fst).Nodup) :
    (∀ sid sess, alookup sid s.db.ad_sessions = some sess →
      sess.created_at < c.now - 60 →
      alookup sid (cleanup_expired_sessions noFaults c s).2.db.ad_sessions = none)
    ∧ (∀ sid sess, alookup sid s.db.ad_sessions = some sess →
      ¬ sess.created_at < c.now - 60 →
      alookup sid (cleanup_expired_sessions noFaults c s).2.db.ad_sessions =
        some sess)
    ∧ (∀ code v, alookup code s.db.ad_verifications = some v →
      v.created_at < c.now - 60 →
      alookup code (cleanup_expired_sessions noFaults c s).2.db.ad_verifications = none)
    ∧ (∀ code v, alookup code s.db.ad_verifications = some v →
      ¬ v.created_at < c.now - 60 →
      alookup code (cleanup_expired_sessions noFaults c s).2.db.ad_verifications =
        some v)
    ∧ (cleanup_expired_sessions noFaults c s).1.1 +
        (cleanup_expired_sessions noFaults c s).2.db.ad_sessions.length =
        s.db.ad_sessions.length
    ∧ (cleanup_expired_sessions noFaults c s).1.2 +
        (cleanup_expired_sessions noFaults c s).2.db.ad_verifications.length =
        s.db.ad_verifications.length
    ∧ (∀ sid sess, alookup sid s.db.ad_sessions = some sess →
      sess.created_at < c.now - 60 →
      cache_get_user c (cleanup_expired_sessions noFaults c s).2.cache
        sess.user_id = none)
    ∧ (∀ uid, uid ∉ (s.db.ad_sessions.filter
        (fun p => decide (p.2.created_at < c.now - 60))).map
          (fun p => p.2.user_id) →
      cache_get_user c (cleanup_expired_sessions noFaults c s).2.cache uid =
        cache_get_user c s.cache uid)
    ∧ (cleanup_expired_sessions noFaults c s).2.cache.adminC = s.cache.adminC
    ∧ (cleanup_expired_sessions noFaults c s).2.cache.bannedC = s.cache.bannedC := by
  have hcl : cleanup_expired_sessions noFaults c s =
      (((s.db.ad_sessions.filter
          (fun p => decide (p.2.created_at < c.now - 60))).length,
        (s.db.ad_verifications.filter
          (fun p => decide (p.2.created_at < c.now - 60))).length),
        st_cache (st_sweep s
          (s.db.ad_sessions.filter
            (fun p => !decide (p.2.created_at < c.now - 60)))
          (s.db.ad_verifications.filter
            (fun p => !decide (p.2.created_at < c.now - 60))))
          ((s.db.ad_sessions.filter
            (fun p => decide (p.2.created_at < c.now - 60))).foldl
            (fun ch p => cache_del_user p.2.user_id ch) s.cache)) := by
    simp [cleanup_expired_sessions, noFaults]
  refine ⟨?_, ?_, ?_, ?_, ?_, ?_, ?_, ?_, ?_, ?_⟩
  · intro sid sess hl hold
    rw [hcl]
    simp only [st_cache, st_sweep]
    rw [alookup_filter_nodup sid _ _ hnodupS, hl]
    simp [hold]
    omega
  · intro sid sess hl hnew
    rw [hcl]
    simp only [st_cache, st_sweep]
    rw [alookup_filter_nodup sid _ _ hnodupS, hl]
    simp [hnew]
    omega
  · intro code v hl hold
    rw [hcl]
    simp only [st_cache, st_sweep]
    rw [alookup_filter_nodup code _ _ hnodupV, hl]
    simp [hold]
    omega
  · intro code v hl hnew
    rw [hcl]
    simp only [st_cache, st_sweep]
    rw [alookup_filter_nodup code _ _ hnodupV, hl]
    simp [hnew]
    omega
  · rw [hcl]
    simp only [st_cache, st_sweep]
    exact length_filter_split _ _
  · rw [hcl]
    simp only [st_cache, st_sweep]
    exact length_filter_split _ _
  · intro sid sess hl hold
    rw [hcl]
    simp only [st_cache, st_sweep]
    apply cache_get_user_foldl_del_mem
    have hmem : (sid, sess) ∈ s.db.ad_sessions.filter
        (fun p => decide (p.2.created_at < c.now - 60)) := by
      rw [List.mem_filter]
      exact ⟨alookup_mem hl, by simpa using hold⟩
    exact List.mem_map.mpr ⟨(sid, sess), hmem, rfl⟩
  · intro uid hnm
    rw [hcl]
    simp only [st_cache, st_sweep]
    exact cache_get_user_foldl_del_not_mem c _ s.cache uid hnm
  · rw [hcl]
    simp only [st_cache, st_sweep]
    exact cache_foldl_del_adminC _ s.cache
  · rw [hcl]
    simp only [st_cache, st_sweep]
    exact cache_foldl_del_bannedC _ s.cache

/-- Witness for C8 at a concrete store: one 90-minute-old session of user 1
(removed, cache entry for user 1 deleted), one fresh session of user 2
(retained), one stale and one fresh verification code; counts are 1 and 1. -/
theorem C8_witness :
    alookup "old" (cleanup_expired_sessions noFaults ⟨100, 5⟩
      ⟨⟨[], [], [], [("old", ⟨1, 10, false⟩), ("new", ⟨2, 90, false⟩)],
        [("vold", ⟨3, 10⟩), ("vnew", ⟨3, 90⟩)]⟩,
        ⟨[(1, ⟨⟨"free", none, none, false, none, none, 0, 5, 0⟩, 1000⟩)], [], []⟩,
        0⟩).2.db.ad_sessions = none
    ∧ alookup "new" (cleanup_expired_sessions noFaults ⟨100, 5⟩
      ⟨⟨[], [], [], [("old", ⟨1, 10, false⟩), ("new", ⟨2, 90, false⟩)],
        [("vold", ⟨3, 10⟩), ("vnew", ⟨3, 90⟩)]⟩,
        ⟨[(1, ⟨⟨"free", none, none, false, none, none, 0, 5, 0⟩, 1000⟩)], [], []⟩,
        0⟩).2.db.ad_sessions = some ⟨2, 90, false⟩
    ∧ cache_get_user ⟨100, 5⟩ (cleanup_expired_sessions noFaults ⟨100, 5⟩
      ⟨⟨[], [], [], [("old", ⟨1, 10, false⟩), ("new", ⟨2, 90, false⟩)],
        [("vold", ⟨3, 10⟩), ("vnew", ⟨3, 90⟩)]⟩,
        ⟨[(1, ⟨⟨"free", none, none, false, none, none, 0, 5, 0⟩, 1000⟩)], [], []⟩,
        0⟩).2.cache 1 = none :=
  ⟨(C8_sweep_correctness ⟨100, 5⟩
      ⟨⟨[], [], [], [("old", ⟨1, 10, false⟩), ("new", ⟨2, 90, false⟩)],
        [("vold", ⟨3, 10⟩), ("vnew", ⟨3, 90⟩)]⟩,
        ⟨[(1, ⟨⟨"free", none, none, false, none, none, 0, 5, 0⟩, 1000⟩)], [], []⟩,
        0⟩ (by decide) (by decide)).1 "old" ⟨1, 10, false⟩ (by decide) (by decide),
    (C8_sweep_correctness ⟨100, 5⟩
      ⟨⟨[], [], [], [("old", ⟨1, 10, false⟩), ("new", ⟨2, 90, false⟩)],
        [("vold", ⟨3, 10⟩), ("vnew", ⟨3, 90⟩)]⟩,
        ⟨[(1, ⟨⟨"free", none, none, false, none, none, 0, 5, 0⟩, 1000⟩)], [], []⟩,
        0⟩ (by decide) (by decide)).2.1 "new" ⟨2, 90, false⟩ (by decide) (by decide),
    (C8_sweep_correctness ⟨100, 5⟩
      ⟨⟨[], [], [], [("old", ⟨1, 10, false⟩), ("new", ⟨2, 90, false⟩)],
        [("vold", ⟨3, 10⟩), ("vnew", ⟨3, 90⟩)]⟩,
        ⟨[(1, ⟨⟨"free", none, none, false, none, none, 0, 5, 0⟩, 1000⟩)], [], []⟩,
        0⟩ (by decide) (by decide)).2.2.2.2.2.2.1 "old" ⟨1, 10, false⟩
      (by decide) (by decide)⟩

/-- Claim C9 counterexample: charging an admin (stored rotation index 0)
for one item returns success but changes nothing in the durable store —
in particular no rotation index is advanced, because the per-item hook
increment_shortener_rotation only returns True. -/
theorem C9_counterexample :
    (increment_usage noFaults ⟨100, 5⟩
      ⟨⟨[(2, ⟨"free", none, none, false, none, none, 0, 5, 0⟩)], [],
        [(2, ⟨1, 0⟩)], [], []⟩, ⟨[], [], []⟩, 0⟩ 2 1).1 = true
    ∧ (increment_usage noFaults ⟨100, 5⟩
      ⟨⟨[(2, ⟨"free", none, none, false, none, none, 0, 5, 0⟩)], [],
        [(2, ⟨1, 0⟩)], [], []⟩, ⟨[], [], []⟩, 0⟩ 2 1).2.db =
      (⟨⟨[(2, ⟨"free", none, none, false, none, none, 0, 5, 0⟩)], [],
        [(2, ⟨1, 0⟩)], [], []⟩, ⟨[], [], []⟩, 0⟩ : St).db
    ∧ (alookup 2 (increment_usage noFaults ⟨100, 5⟩
      ⟨⟨[(2, ⟨"free", none, none, false, none, none, 0, 5, 0⟩)], [],
        [(2, ⟨1, 0⟩)], [], []⟩, ⟨[], [], []⟩, 0⟩ 2 1).2.db.users).map
        UserRow.shortener_index = some 0 := by decide

/-- Claim C9 (amended): for a stored user whose effective type is admin or
active paid, can_download is always allowed and increment_usage reports
success while changing nothing in the durable store — no ad balance, no
daily counter, and no stored rotation index; the no-op rotation hook is
invoked once per charged item. -/
theorem C9_admin_paid_override (c : Clock) (s : St) (uid : Nat)
    (row : UserRow) (count : Int)
    (hcu : user_cache_ok c s uid = true)
    (hca : admin_cache_ok c s uid = true)
    (hu : alookup uid s.db.users = some row)
    (hT : (∃ a, alookup uid s.db.admins = some a) ∨
      (row.user_type = "paid" ∧ ∃ e, row.subscription_end = some e
        ∧ c.now < e ∧ alookup uid s.db.admins = none)) :
    (can_download noFaults c s uid count).1 = .ok (true, .empty)
    ∧ (can_download noFaults c s uid count).2.db = s.db
    ∧ (increment_usage noFaults c s uid count).1 = true
    ∧ (increment_usage noFaults c s uid count).2.db = s.db
    ∧ (increment_usage noFaults c s uid count).2.rotation_calls =
        s.rotation_calls + count.toNat := by
  rcases hT with ⟨a, hadm⟩ | ⟨hpaid, e, hsub, hnow, hadm⟩
  · obtain ⟨t1, t2, t3, t4⟩ := get_user_type_admin c s uid row a hcu hca hu hadm
    rcases hgt : get_user_type noFaults c s uid with ⟨tv, s2⟩
    simp only [hgt] at t1 t2 t3 t4
    subst t1
    refine ⟨?_, ?_, ?_, ?_, ?_⟩ <;>
      simp [can_download, increment_usage, hgt, t2, t3, bump_rotation]
  · obtain ⟨t1, t2, t3, t4⟩ :=
      get_user_type_paid c s uid row e hcu hca hu hpaid hsub hnow hadm
    rcases hgt : get_user_type noFaults c s uid with ⟨tv, s2⟩
    simp only [hgt] at t1 t2 t3 t4
    subst t1
    refine ⟨?_, ?_, ?_, ?_, ?_⟩ <;>
      simp [can_download, increment_usage, hgt, t2, t3, bump_rotation]

/-- Witness for C9 (amended) at a concrete store: an admin with exhausted
ad balance and 5 downloads recorded today is allowed and charged without
any store change. -/
theorem C9_witness :
    (can_download noFaults ⟨100, 5⟩
      ⟨⟨[(2, ⟨"free", none, none, false, none, none, 0, 5, 0⟩)], [((2, 5), 5)],
        [(2, ⟨1, 0⟩)], [], []⟩, ⟨[], [], []⟩, 0⟩ 2 1).1 = .ok (true, .empty)
    ∧ (can_download noFaults ⟨100, 5⟩
      ⟨⟨[(2, ⟨"free", none, none, false, none, none, 0, 5, 0⟩)], [((2, 5), 5)],
        [(2, ⟨1, 0⟩)], [], []⟩, ⟨[], [], []⟩, 0⟩ 2 1).2.db =
      (⟨⟨[(2, ⟨"free", none, none, false, none, none, 0, 5, 0⟩)], [((2, 5), 5)],
        [(2, ⟨1, 0⟩)], [], []⟩, ⟨[], [], []⟩, 0⟩ : St).db
    ∧ (increment_usage noFaults ⟨100, 5⟩
      ⟨⟨[(2, ⟨"free", none, none, false, none, none, 0, 5, 0⟩)], [((2, 5), 5)],
        [(2, ⟨1, 0⟩)], [], []⟩, ⟨[], [], []⟩, 0⟩ 2 1).1 = true
    ∧ (increment_usage noFaults ⟨100, 5⟩
      ⟨⟨[(2, ⟨"free", none, none, false, none, none, 0, 5, 0⟩)], [((2, 5), 5)],
        [(2, ⟨1, 0⟩)], [], []⟩, ⟨[], [], []⟩, 0⟩ 2 1).2.db =
      (⟨⟨[(2, ⟨"free", none, none, false, none, none, 0, 5, 0⟩)], [((2, 5), 5)],
        [(2, ⟨1, 0⟩)], [], []⟩, ⟨[], [], []⟩, 0⟩ : St).db
    ∧ (increment_usage noFaults ⟨100, 5⟩
      ⟨⟨[(2, ⟨"free", none, none, false, none, none, 0, 5, 0⟩)], [((2, 5), 5)],
        [(2, ⟨1, 0⟩)], [], []⟩, ⟨[], [], []⟩, 0⟩ 2 1).2.rotation_calls =
      (⟨⟨[(2, ⟨"free", none, none, false, none, none, 0, 5, 0⟩)], [((2, 5), 5)],
        [(2, ⟨1, 0⟩)], [], []⟩, ⟨[], [], []⟩, 0⟩ : St).rotation_calls +
        (1 : Int).toNat :=
  C9_admin_paid_override ⟨100, 5⟩
    ⟨⟨[(2, ⟨"free", none, none, false, none, none, 0, 5, 0⟩)], [((2, 5), 5)],
      [(2, ⟨1, 0⟩)], [], []⟩, ⟨[], [], []⟩, 0⟩ 2
    ⟨"free", none, none, false, none, none, 0, 5, 0⟩ 1
    (by decide) (by decide) (by decide) (Or.inl ⟨⟨1, 0⟩, by decide⟩)

/-- Claim C10 counterexample: an id with no stored user record but with a
leftover daily_usage row for today (such rows are created by charging an
unregistered id) is rejected for a request of 1, contradicting the claim
that can_download approves any unknown id whenever the count is at most 1. -/
theorem C10_counterexample :
    (can_download noFaults ⟨100, 5⟩
      ⟨⟨[], [((9, 5), 1)], [], [], []⟩, ⟨[], [], []⟩, 0⟩ 9 1).1 =
      .ok (false, .dailyLimit) := by decide

/-- Claim C10 (amended: additionally requiring no daily_usage row recorded
for the id today, since the daily counter is keyed by id alone): an id with
no stored user record is treated as a free user with zero ad balance and
zero usage — get_user_type returns free, can_download approves with an
empty reason exactly when the count is at most 1 and rejects with the
daily-limit reason otherwise, and neither call creates any row or changes
any state. -/
theorem C10_unknown_user_defaults (c : Clock) (s : St) (uid : Nat)
    (count : Int)
    (hcu : user_cache_ok c s uid = true)
    (hu : alookup uid s.db.users = none)
    (hd : alookup (uid, c.today) s.db.daily_usage = none) :
    get_user_type noFaults c s uid = (.ok "free", s)
    ∧ (count ≤ 1 →
      can_download noFaults c s uid count = (.ok (true, .empty), s))
    ∧ (1 < count →
      can_download noFaults c s uid count = (.ok (false, .dailyLimit), s)) := by
  have hgt : get_user_type noFaults c s uid = (.ok "free", s) :=
    get_user_type_missing c s uid hcu hu
  have hres : reset_ad_downloads_if_needed noFaults c s uid = (.ok (), s) :=
    reset_missing c s uid hcu hu
  have hgu : get_user noFaults c s uid = (none, s) :=
    get_user_missing c s uid hcu hu
  refine ⟨hgt, ?_, ?_⟩
  · intro hle
    have hnc : ¬ (1 : Int) < 0 + count := by omega
    simp [can_download, hgt, hres, hgu, get_daily_usage, noFaults_rfail, hd, hnc]
    omega
  · intro hgtc
    have hc : (1 : Int) < 0 + count := by omega
    simp [can_download, hgt, hres, hgu, get_daily_usage, noFaults_rfail, hd, hc]
    omega

/-- Witness for C10 (amended) at a concrete store: an unknown id 9 with no
daily row is reported free and approved for a single download with no state
change. -/
theorem C10_witness :
    get_user_type noFaults ⟨100, 5⟩
      ⟨⟨[], [], [], [], []⟩, ⟨[], [], []⟩, 0⟩ 9 =
      (.ok "free", ⟨⟨[], [], [], [], []⟩, ⟨[], [], []⟩, 0⟩)
    ∧ can_download noFaults ⟨100, 5⟩
      ⟨⟨[], [], [], [], []⟩, ⟨[], [], []⟩, 0⟩ 9 1 =
      (.ok (true, .empty), ⟨⟨[], [], [], [], []⟩, ⟨[], [], []⟩, 0⟩) :=
  ⟨(C10_unknown_user_defaults ⟨100, 5⟩
      ⟨⟨[], [], [], [], []⟩, ⟨[], [], []⟩, 0⟩ 9 1
      (by decide) (by decide) (by decide)).1,
    (C10_unknown_user_defaults ⟨100, 5⟩
      ⟨⟨[], [], [], [], []⟩, ⟨[], [], []⟩, 0⟩ 9 1
      (by decide) (by decide) (by decide)).2.1 (by decide)⟩
